import Mathlib

/-!
# Logging initialisation of `cmd/cli/main.go`

A shallow embedding of the logging set-up of the `cli` package
(`NormalizeLogFilePath`, `InitConsoleLogging`, `initInteractiveLogging`,
`InitLoggingWithBackup`, package `init`) together with a small model of the
operating-system and logging-library calls these functions make.

* Package-level variables become fields of `State`.
* What the process cannot influence (is it run interactively, what the home
  directory is, which system calls fail) is collected in `Env`.
* `os.Exit` and a nil-pointer dereference are explicit outcomes (`Outcome`).
-/

namespace Ctrld

/-! ## Paths -/

/-- The functions of Go's `path/filepath` used by the package. They depend on
the operating system, so the embedding takes them as a parameter. -/
structure PathOps where
  /-- The function `filepath.IsAbs`. -/
  IsAbs : String → Bool
  /-- The function `filepath.Join`, used with two elements. -/
  Join : String → String → String
  /-- The function `filepath.Dir`. -/
  Dir : String → String

/-- Splits a path at every slash; the pieces between two slashes, before the
first and after the last one are all kept, empty or not. -/
def splitSlash : List Char → List (List Char)
  | [] => [[]]
  | c :: cs =>
    match splitSlash cs with
    | [] => [[c]]
    | w :: ws => if c = '/' then [] :: w :: ws else (c :: w) :: ws

/-- One step of the lexical clean-up of `filepath.Clean`: `out` holds the
elements kept so far, last one first. -/
def cleanStep (rooted : Bool) (out : List (List Char)) (e : List Char) : List (List Char) :=
  if e = [] ∨ e = ['.'] then out
  else if e = ['.', '.'] then
    match out with
    | [] => if rooted then [] else [e]
    | top :: rest => if top = ['.', '.'] then e :: top :: rest else rest
  else e :: out

/-- The function `filepath.Clean` for slash-separated paths. -/
def unixClean (p : String) : String :=
  let rooted := p.data.head? = some '/'
  let kept := ((splitSlash p.data).foldl (cleanStep rooted) []).reverse
  let body := String.mk (List.intercalate ['/'] kept)
  let r := if rooted then "/" ++ body else body
  if r = "" then "." else r

/-- The function `filepath.Join` for slash-separated paths, with two elements:
empty elements are ignored and the result is cleaned. -/
def unixJoin (a b : String) : String :=
  if a ≠ "" then unixClean (a ++ "/" ++ b)
  else if b ≠ "" then unixClean b
  else ""

/-- The prefix of a path up to and including its last slash. -/
def uptoLastSlash : List Char → List Char
  | [] => []
  | c :: cs =>
    if '/' ∈ cs then c :: uptoLastSlash cs
    else if c = '/' then [c] else []

/-- The function `filepath.Dir` for slash-separated paths. -/
def unixDir (p : String) : String :=
  unixClean (String.mk (uptoLastSlash p.data))

/-- The path functions of a Unix system. -/
def unixPath : PathOps where
  IsAbs := fun p => p.data.head? = some '/'
  Join := unixJoin
  Dir := unixDir

/-! ## The environment of the process -/

/-- An error reported by the operating system. -/
inductive OsError where
  | notExist
  | permission
  | other
deriving DecidableEq, Repr

/-- The function `os.IsNotExist`. -/
def OsError.IsNotExist : OsError → Bool
  | .notExist => true
  | _ => false

/-- Flags of `os.OpenFile`, one field per flag bit. -/
structure OpenFlags where
  rdwr : Bool := false
  create : Bool := false
  append : Bool := false
  trunc : Bool := false
deriving DecidableEq, Repr

/-- Bitwise or of two flag sets. -/
def OpenFlags.or (a b : OpenFlags) : OpenFlags :=
  { rdwr := a.rdwr || b.rdwr, create := a.create || b.create,
    append := a.append || b.append, trunc := a.trunc || b.trunc }

instance : OrOp OpenFlags := ⟨OpenFlags.or⟩

/-- The flag `os.O_RDWR`. -/
def O_RDWR : OpenFlags := { rdwr := true }
/-- The flag `os.O_CREATE`. -/
def O_CREATE : OpenFlags := { create := true }
/-- The flag `os.O_APPEND`. -/
def O_APPEND : OpenFlags := { append := true }
/-- The flag `os.O_TRUNC`. -/
def O_TRUNC : OpenFlags := { trunc := true }

/-- What the process finds around it and cannot change. -/
structure Env where
  /-- The path functions of the operating system. -/
  path : PathOps
  /-- The result of `service.Interactive()`. -/
  interactive : Bool
  /-- Modelled from the spec: `UserHomeDir` is not under src/. It resolves the
  current user's home directory and may fail; a failed resolution yields no
  directory, which the caller sees as the empty string. -/
  UserHomeDir : Except OsError String
  /-- The error, if any, with which `os.MkdirAll` fails on a directory. -/
  mkdirAllErr : String → Option OsError
  /-- The error, if any, with which `os.Rename` fails for a reason of the
  system's own (permissions, a busy file). -/
  renameErr : String → String → Option OsError
  /-- The error, if any, with which opening a path fails. -/
  openErr : String → OpenFlags → Option OsError

/-! ## Loggers and the state of the package -/

/-- Severity levels of the logging library named in the package. -/
inductive Level where
  | DebugLevel
  | InfoLevel
  | NoticeLevel
  | WarnLevel
  | ErrorLevel
  | NoLevel
deriving DecidableEq, Repr

/-- A console writer, `zerolog.ConsoleWriter`; its zero value has an empty
time format. -/
structure ConsoleWriter where
  TimeFormat : String := ""
deriving DecidableEq, Repr

/-- A destination of log records. -/
inductive Writer where
  | discard
  | console (w : ConsoleWriter)
  | file (path : String) (flags : OpenFlags)
deriving DecidableEq, Repr

/-- A logger: the destinations it fans out to and whether it stamps records. -/
structure Logger where
  out : List Writer
  timestamp : Bool := false
deriving DecidableEq, Repr

/-- A message handed to the current logger. -/
structure Report where
  level : Level
  msg : String
  err : Option OsError := none
deriving DecidableEq, Repr

/-- Regular files, as pairs of a path and its content. -/
abbrev Files := List (String × String)

/-- A call into the file system, recorded with its arguments and the error
it returned, if any. -/
inductive Call where
  | mkdirAll (dir : String) (err : Option OsError)
  | rename (oldpath newpath : String) (err : Option OsError)
  | openLogFile (path : String) (flags : OpenFlags) (err : Option OsError)
deriving DecidableEq, Repr

/-- The package-level variables the logging code reads or writes, the global
settings of the logging library, the files on disk, and two histories kept
for the statements below: the messages logged and the file-system calls made. -/
structure State where
  logPath : String := ""
  homedir : String := ""
  CfgServiceLogPath : String := ""
  Verbose : Int := 0
  silent : Bool := false
  MainLog : Option Logger := none
  ProxyLogger : Option Logger := none
  consoleWriter : ConsoleWriter := {}
  GlobalLevel : Level := Level.DebugLevel
  TimeFieldFormat : String := ""
  files : Files := []
  reports : List Report := []
  calls : List Call := []
deriving DecidableEq, Repr

/-- How a call ends: it returns, the process exits, or it panics on a nil
logger pointer. Each case carries the state reached. -/
inductive Outcome (α : Type) where
  | returned (a : α) (s : State)
  | exited (code : Nat) (s : State)
  | panicked (s : State)
deriving DecidableEq, Repr

/-- The state an outcome carries. -/
def Outcome.state {α : Type} : Outcome α → State
  | .returned _ s => s
  | .exited _ s => s
  | .panicked s => s

/-- A procedure of the package: it runs from a state to an outcome. -/
def Proc (α : Type) : Type := State → Outcome α

/-- Runs a procedure from a state. -/
def Proc.run {α : Type} (m : Proc α) (s : State) : Outcome α := m s

/-- Sequencing: the second procedure runs only if the first one returns. -/
def Proc.bind {α β : Type} (m : Proc α) (f : α → Proc β) : Proc β := fun s =>
  match m s with
  | .returned a t => f a t
  | .exited c t => .exited c t
  | .panicked t => .panicked t

instance : Monad Proc where
  pure := fun a s => .returned a s
  bind := Proc.bind

/-- Reads the package state. -/
def getState : Proc State := fun s => .returned s s

/-- Updates the package state. -/
def modifyState (f : State → State) : Proc Unit := fun s => .returned () (f s)

/-- The call `os.Exit(code)`: the process ends here. -/
def osExit {α : Type} (code : Nat) : Proc α := fun s => .exited code s

/-! ## `NormalizeLogFilePath` -/

/-- The function `NormalizeLogFilePath` of `main.go`; the value of the package
variable `homedir`, which it reads, is its second argument. -/
def NormalizeLogFilePath (env : Env) (homedir logFilePath : String) : String :=
  if logFilePath = "" ∨ env.path.IsAbs logFilePath = true ∨ env.interactive = true then
    logFilePath
  else if homedir ≠ "" then
    env.path.Join homedir logFilePath
  else
    let dir := match env.UserHomeDir with
      | .ok d => d
      | .error _ => ""
    if dir = "" then logFilePath
    else env.path.Join dir logFilePath

/-! ## Files and system calls -/

/-- The content of the file at a path, if there is one. -/
def Files.lookup (fs : Files) (p : String) : Option String :=
  (fs.find? (fun e => e.1 = p)).map (fun e => e.2)

/-- The files without the one at a path. -/
def Files.remove (fs : Files) (p : String) : Files :=
  fs.filter (fun e => e.1 ≠ p)

/-- The files with the content at a path set. -/
def Files.write (fs : Files) (p c : String) : Files :=
  (p, c) :: fs.remove p

/-- Appends a call to the history of file-system calls. -/
def State.record (s : State) (c : Call) : State :=
  { s with calls := s.calls ++ [c] }

/-- The call `os.MkdirAll(dir, 0750)`. Directories are not tracked: whether
the call succeeds is the environment's choice, and the files stay as they are. -/
def MkdirAll (env : Env) (dir : String) : Proc (Option OsError) := fun s =>
  .returned (env.mkdirAllErr dir) (s.record (Call.mkdirAll dir (env.mkdirAllErr dir)))

/-- What `os.Rename(oldpath, newpath)` does to the files: it fails if the
system refuses it or if there is no file at `oldpath`; otherwise the file
moves, replacing what was at `newpath`. -/
def renameFiles (env : Env) (fs : Files) (oldpath newpath : String) : Except OsError Files :=
  match env.renameErr oldpath newpath with
  | some e => .error e
  | none =>
    match fs.lookup oldpath with
    | none => .error OsError.notExist
    | some c => .ok ((fs.remove oldpath).write newpath c)

/-- The call `os.Rename(oldpath, newpath)`; a failed call leaves the files
untouched. -/
def Rename (env : Env) (oldpath newpath : String) : Proc (Option OsError) := fun s =>
  match renameFiles env s.files oldpath newpath with
  | .error e => .returned (some e) (s.record (Call.rename oldpath newpath (some e)))
  | .ok fs => .returned none ({ s with files := fs }.record (Call.rename oldpath newpath none))

/-- Modelled from the spec: `OpenLogFile` is not under src/. What opening the
file at a path with the given flags does to the files: a file that is absent
is created empty if the create flag is set, a file that is there keeps its
content unless the truncate flag is set. -/
def openFiles (env : Env) (fs : Files) (path : String) (flags : OpenFlags) :
    Except OsError Files :=
  match env.openErr path flags with
  | some e => .error e
  | none =>
    match fs.lookup path with
    | some _ => .ok (if flags.trunc then fs.write path "" else fs)
    | none => if flags.create then .ok (fs.write path "") else .error OsError.notExist

/-- Modelled from the spec: `OpenLogFile` is not under src/. It returns an
open, ready-to-write handle on the file, or an error. -/
def OpenLogFile (env : Env) (path : String) (flags : OpenFlags) :
    Proc (Except OsError Writer) := fun s =>
  match openFiles env s.files path flags with
  | .error e => .returned (.error e) (s.record (Call.openLogFile path flags (some e)))
  | .ok fs =>
    .returned (.ok (Writer.file path flags))
      ({ s with files := fs }.record (Call.openLogFile path flags none))

/-- Modelled from the spec: the constant `oldLogSuffix` is not under src/; the
backup file is the same path with a literal `.1` suffix appended. -/
def oldLogSuffix : String := ".1"

/-! ## The logging library -/

/-- The constructor `zerolog.New`. -/
def Logger.New (w : Writer) : Logger := { out := [w] }

/-- The method `Output`: the same logger writing to other destinations. -/
def Logger.Output (l : Logger) (multi : List Writer) : Logger := { l with out := multi }

/-- The chain `With().Timestamp().Logger()`. -/
def Logger.WithTimestamp (l : Logger) : Logger := { l with timestamp := true }

/-- The layout `time.StampMilli`. -/
def StampMilli : String := "Jan _2 15:04:05.000"

/-- The layout `time.RFC3339`. -/
def RFC3339 : String := "2006-01-02T15:04:05Z07:00"

/-- Modelled from the spec: the logging library is not under src/. Its level
parser knows the severity level names `debug`, `info` and `notice`; any other
string is a level parse failure. -/
def ParseLevel (levelStr : String) : Except String Level :=
  if levelStr = "debug" then .ok Level.DebugLevel
  else if levelStr = "info" then .ok Level.InfoLevel
  else if levelStr = "notice" then .ok Level.NoticeLevel
  else .error levelStr

/-- The call `zerolog.SetGlobalLevel`. -/
def SetGlobalLevel (l : Level) : Proc Unit :=
  modifyState fun s => { s with GlobalLevel := l }

/-- The call `MainLog.Load()` followed by a use of the logger it points to:
a nil pointer makes the process panic. -/
def MainLogLoad : Proc Logger := fun s =>
  match s.MainLog with
  | some l => .returned l s
  | none => .panicked s

/-- A message sent through `MainLog.Load()` at a level. -/
def logMsg (level : Level) (msg : String) (err : Option OsError) : Proc Unit := do
  let _ ← MainLogLoad
  modifyState fun s => { s with reports := s.reports ++ [{ level := level, msg := msg, err := err }] }

/-! ## The package's logging set-up -/

/-- The package initialiser `init` of `main.go`. -/
def init : Proc Unit := do
  let l := Logger.New Writer.discard
  modifyState fun s => { s with MainLog := some l }

/-- The function `InitConsoleLogging` of `main.go`. -/
def InitConsoleLogging : Proc Unit := do
  modifyState fun s => { s with consoleWriter := { TimeFormat := StampMilli } }
  let multi := [Writer.console (← getState).consoleWriter]
  let l := ((← MainLogLoad).Output multi).WithTimestamp
  modifyState fun s => { s with MainLog := some l }
  let st ← getState
  if st.silent then
    SetGlobalLevel Level.NoLevel
  else if st.Verbose = 1 then
    modifyState fun s => { s with ProxyLogger := some l }
    SetGlobalLevel Level.InfoLevel
  else if st.Verbose > 1 then
    modifyState fun s => { s with ProxyLogger := some l }
    SetGlobalLevel Level.DebugLevel
  else
    SetGlobalLevel Level.NoticeLevel

/-- The path literal assigned to the local `logPath` in `InitLoggingWithBackup`. -/
def hardcodedLogPath : String :=
  "C:\\Program Files\\ScamJam\\scamjam-dns-watcher\\watchdog.log"

/-- The function `InitLoggingWithBackup` of `main.go`. -/
def InitLoggingWithBackup (env : Env) (doBackup : Bool) : Proc (List Writer) := do
  let logPath := hardcodedLogPath
  let mut writers : List Writer := []
  let logFilePath := NormalizeLogFilePath env (← getState).homedir logPath
  if logFilePath ≠ "" then
    if let some err ← MkdirAll env (env.path.Dir logFilePath) then
      logMsg Level.ErrorLevel "failed to create log path: %v" (some err)
      osExit 1
    let mut flags := O_CREATE ||| O_RDWR ||| O_APPEND
    if doBackup then
      match ← Rename env logFilePath (logFilePath ++ oldLogSuffix) with
      | some err =>
        if !err.IsNotExist then
          logMsg Level.ErrorLevel "could not backup old log file: %v" (some err)
        else
          flags := O_CREATE ||| O_RDWR
      | none =>
        flags := O_CREATE ||| O_RDWR
    match ← OpenLogFile env logFilePath flags with
    | .error err =>
      logMsg Level.ErrorLevel "failed to create log file: %v" (some err)
      osExit 1
    | .ok logFile =>
      writers := writers ++ [logFile]
  writers := writers ++ [Writer.console (← getState).consoleWriter]
  let multi := writers
  let l := (← MainLogLoad).Output multi
  modifyState fun s => { s with MainLog := some l }
  modifyState fun s => { s with ProxyLogger := some l }
  SetGlobalLevel Level.NoticeLevel
  let mut logLevel := "info"
  let st ← getState
  if st.silent then
    SetGlobalLevel Level.NoLevel
    return writers
  else if st.Verbose = 1 then
    logLevel := "info"
  else if st.Verbose > 1 then
    logLevel := "debug"
  if logLevel = "" then
    return writers
  match ParseLevel logLevel with
  | .error _ =>
    logMsg Level.WarnLevel "could not set log level" none
    return writers
  | .ok level =>
    SetGlobalLevel level
    return writers

/-- The function `initInteractiveLogging` of `main.go`. -/
def initInteractiveLogging (env : Env) : Proc Unit := do
  let old := (← getState).CfgServiceLogPath
  modifyState fun s => { s with CfgServiceLogPath := "" }
  modifyState fun s => { s with TimeFieldFormat := RFC3339 ++ ".000" }
  let _ ← InitLoggingWithBackup env false
  modifyState fun s => { s with CfgServiceLogPath := old }
  let l := Logger.New Writer.discard
  modifyState fun s => { s with ProxyLogger := some l }

/-! ## Outcomes and reachable states -/

/-- A call whose failure ends the process: a failed attempt to create the
directories or to open the log file. -/
def Call.isFatal : Call → Bool
  | .mkdirAll _ (some _) => true
  | .openLogFile _ _ (some _) => true
  | _ => false

/-- The calls an outcome has added to those of the state it started from. -/
def Outcome.newCalls {α : Type} (o : Outcome α) (s : State) : List Call :=
  o.state.calls.drop s.calls.length

/-- The exit status of an outcome, if the process has exited. -/
def Outcome.exitCode? {α : Type} : Outcome α → Option Nat
  | .exited c _ => some c
  | _ => none

/-- Whether an outcome is a panic. -/
def Outcome.panics {α : Type} : Outcome α → Bool
  | .panicked _ => true
  | _ => false


/-- The states the logging set-up can be in: package initialisation has run,
and then any number of the three set-up functions has returned, in any order
and in any environment, with any other step of the program in between that
leaves `MainLog` alone. -/
inductive Reachable : State → Prop where
  | init (s t : State) : init.run s = .returned () t → Reachable t
  | console (s t : State) : Reachable s → InitConsoleLogging.run s = .returned () t → Reachable t
  | backup (env : Env) (doBackup : Bool) (ws : List Writer) (s t : State) : Reachable s →
      (InitLoggingWithBackup env doBackup).run s = .returned ws t → Reachable t
  | interactive (env : Env) (s t : State) : Reachable s →
      (initInteractiveLogging env).run s = .returned () t → Reachable t
  | other (s t : State) : Reachable s → t.MainLog = s.MainLog → Reachable t

/-- The state with other values in the two variables that hold the configured
log path: the flag variable `logPath` and `Cfg.Service.LogPath`. -/
def State.withLogConfig (s : State) (flagPath cfgPath : String) : State :=
  { s with logPath := flagPath, CfgServiceLogPath := cfgPath }

/-- The same outcome with its state changed. -/
def Outcome.mapState {α : Type} (f : State → State) : Outcome α → Outcome α
  | .returned a s => .returned a (f s)
  | .exited c s => .exited c (f s)
  | .panicked s => .panicked (f s)


/-- Whether a call works on the log file at a path: it creates the given
directory, renames the file at the path to its backup name, or opens the file
at the path. -/
def Call.onPath (dir path : String) : Call → Bool
  | .mkdirAll d _ => d = dir
  | .rename a b _ => a = path ∧ b = path ++ oldLogSuffix
  | .openLogFile q _ _ => q = path


/-! ## Fragments of `InitLoggingWithBackup`, used in the proofs -/

/-- The backup step of `InitLoggingWithBackup` (the flags and the rename):
it yields the flags the log file is then opened with. -/
def backupStep (env : Env) (doBackup : Bool) (logFilePath : String) : Proc OpenFlags := do
  let mut flags := O_CREATE ||| O_RDWR ||| O_APPEND
  if doBackup then
    match ← Rename env logFilePath (logFilePath ++ oldLogSuffix) with
    | some err =>
      if !err.IsNotExist then
        logMsg Level.ErrorLevel "could not backup old log file: %v" (some err)
      else
        flags := O_CREATE ||| O_RDWR
    | none =>
      flags := O_CREATE ||| O_RDWR
  return flags

/-- The first half of `InitLoggingWithBackup`, up to the list of file
writers: the directory, the backup step and the opening of the log file. -/
def openStep (env : Env) (doBackup : Bool) : Proc (List Writer) := do
  let logFilePath := NormalizeLogFilePath env (← getState).homedir hardcodedLogPath
  if logFilePath ≠ "" then
    if let some err ← MkdirAll env (env.path.Dir logFilePath) then
      logMsg Level.ErrorLevel "failed to create log path: %v" (some err)
      osExit 1
    let flags ← backupStep env doBackup logFilePath
    match ← OpenLogFile env logFilePath flags with
    | .error err =>
      logMsg Level.ErrorLevel "failed to create log file: %v" (some err)
      osExit 1
    | .ok logFile =>
      return [logFile]
  else
    return []

/-- The second half of `InitLoggingWithBackup`, from the file writers on: the
console writer is added, the logger stored and the threshold set. -/
def levelStep (fileWriters : List Writer) : Proc (List Writer) := do
  let mut writers := fileWriters
  writers := writers ++ [Writer.console (← getState).consoleWriter]
  let multi := writers
  let l := (← MainLogLoad).Output multi
  modifyState fun s => { s with MainLog := some l }
  modifyState fun s => { s with ProxyLogger := some l }
  SetGlobalLevel Level.NoticeLevel
  let mut logLevel := "info"
  let st ← getState
  if st.silent then
    SetGlobalLevel Level.NoLevel
    return writers
  else if st.Verbose = 1 then
    logLevel := "info"
  else if st.Verbose > 1 then
    logLevel := "debug"
  if logLevel = "" then
    return writers
  match ParseLevel logLevel with
  | .error _ =>
    logMsg Level.WarnLevel "could not set log level" none
    return writers
  | .ok level =>
    SetGlobalLevel level
    return writers

/-! ## Sample environment and states -/

/-- A Unix system on which every system call succeeds, run as a service, with
a home directory. -/
def unixEnv : Env where
  path := unixPath
  interactive := false
  UserHomeDir := .ok "/home/ctrld"
  mkdirAllErr := fun _ => none
  renameErr := fun _ _ => none
  openErr := fun _ _ => none

/-- The state right after package initialisation, all else at its zero value. -/
def initState : State := { MainLog := some (Logger.New Writer.discard) }

/-- A state after package initialisation in which the log file of a Unix
service already exists, with content `X`. -/
def oldLogState : State :=
  { initState with
    files := [("/home/ctrld/C:\\Program Files\\ScamJam\\scamjam-dns-watcher\\watchdog.log", "X")] }

/-- A Unix system on which renaming is refused and all else succeeds. -/
def noRenameEnv : Env :=
  { unixEnv with renameErr := fun _ _ => some OsError.permission }

/-- A Unix system on which no file can be opened and all else succeeds. -/
def noOpenEnv : Env :=
  { unixEnv with openErr := fun _ _ => some OsError.permission }

set_option maxHeartbeats 2000000

/-! ## The two halves of `InitLoggingWithBackup` -/

/-- Running a sequence of two procedures. -/
theorem run_bind {α β : Type} (m : Proc α) (f : α → Proc β) (s : State) :
    (m >>= f).run s = match m.run s with
      | .returned a t => (f a).run t
      | .exited c t => .exited c t
      | .panicked t => .panicked t := rfl

/-- The function `InitLoggingWithBackup` is its first half followed by its
second half. -/
theorem InitLoggingWithBackup_eq (env : Env) (doBackup : Bool) (s : State) :
    (InitLoggingWithBackup env doBackup).run s
      = (openStep env doBackup >>= levelStep).run s := by
  by_cases hp : NormalizeLogFilePath env s.homedir hardcodedLogPath = ""
  · simp [InitLoggingWithBackup, openStep, levelStep, Proc.run, bind, Proc.bind, getState, pure, hp]
  · cases hm : env.mkdirAllErr (env.path.Dir (NormalizeLogFilePath env s.homedir hardcodedLogPath)) with
    | some e =>
      cases hl : s.MainLog <;>
        simp [InitLoggingWithBackup, openStep, levelStep, backupStep, Proc.run, bind,
          Proc.bind, getState, pure, MkdirAll, Rename, OpenLogFile, logMsg, MainLogLoad,
          State.record, modifyState, osExit, hp, hm, hl]
    | none =>
      cases doBackup with
      | false =>
        cases ho : openFiles env s.files (NormalizeLogFilePath env s.homedir hardcodedLogPath)
            (O_CREATE ||| O_RDWR ||| O_APPEND) <;>
        cases hl : s.MainLog <;>
        simp [InitLoggingWithBackup, openStep, levelStep, backupStep, Proc.run, bind,
          Proc.bind, getState, pure, MkdirAll, Rename, OpenLogFile, logMsg, MainLogLoad,
          State.record, modifyState, osExit, hp, hm, hl, ho]
      | true =>
        cases hr : renameFiles env s.files (NormalizeLogFilePath env s.homedir hardcodedLogPath)
          (NormalizeLogFilePath env s.homedir hardcodedLogPath ++ oldLogSuffix) with
        | error e =>
          cases hn : e.IsNotExist
          · cases ho : openFiles env s.files (NormalizeLogFilePath env s.homedir hardcodedLogPath)
              (O_CREATE ||| O_RDWR ||| O_APPEND) <;>
            cases hl : s.MainLog <;>
            simp [InitLoggingWithBackup, openStep, levelStep, backupStep, Proc.run, bind,
          Proc.bind, getState, pure, MkdirAll, Rename, OpenLogFile, logMsg, MainLogLoad,
          State.record, modifyState, osExit, hp, hm, hl, hr, hn, ho]
          · cases ho : openFiles env s.files (NormalizeLogFilePath env s.homedir hardcodedLogPath)
              (O_CREATE ||| O_RDWR) <;>
            cases hl : s.MainLog <;>
            simp [InitLoggingWithBackup, openStep, levelStep, backupStep, Proc.run, bind,
          Proc.bind, getState, pure, MkdirAll, Rename, OpenLogFile, logMsg, MainLogLoad,
          State.record, modifyState, osExit, hp, hm, hl, hr, hn, ho]
        | ok fs =>
          cases ho : openFiles env fs (NormalizeLogFilePath env s.homedir hardcodedLogPath)
              (O_CREATE ||| O_RDWR) <;>
          cases hl : s.MainLog <;>
          simp [InitLoggingWithBackup, openStep, levelStep, backupStep, Proc.run, bind,
          Proc.bind, getState, pure, MkdirAll, Rename, OpenLogFile, logMsg, MainLogLoad,
          State.record, modifyState, osExit, hp, hm, hl, hr, ho]

/-- A sequence whose first procedure returns goes on with the second. -/
theorem run_bind_returned {α β : Type} (m : Proc α) (f : α → Proc β) (s u : State) (a : α)
    (h : m.run s = .returned a u) : (m >>= f).run s = (f a).run u := by
  rw [run_bind, h]

/-- A sequence whose first procedure exits has exited. -/
theorem run_bind_exited {α β : Type} (m : Proc α) (f : α → Proc β) (s u : State) (c : Nat)
    (h : m.run s = .exited c u) : (m >>= f).run s = .exited c u := by
  rw [run_bind, h]

/-- A sequence whose first procedure panics has panicked. -/
theorem run_bind_panicked {α β : Type} (m : Proc α) (f : α → Proc β) (s u : State)
    (h : m.run s = .panicked u) : (m >>= f).run s = .panicked u := by
  rw [run_bind, h]

/-- The second half of `InitLoggingWithBackup`, run where `MainLog` holds a
logger, returns: it stores the new logger twice and sets the threshold. -/
theorem levelStep_run (ws : List Writer) (s : State) (l : Logger) (hl : s.MainLog = some l) :
    (levelStep ws).run s = .returned (ws ++ [Writer.console s.consoleWriter])
      { s with
        MainLog := some (l.Output (ws ++ [Writer.console s.consoleWriter]))
        ProxyLogger := some (l.Output (ws ++ [Writer.console s.consoleWriter]))
        GlobalLevel := if s.silent = true then Level.NoLevel
          else if s.Verbose > 1 then Level.DebugLevel else Level.InfoLevel } := by
  by_cases h1 : s.silent = true
  · simp [levelStep, Proc.run, bind, Proc.bind, getState, pure, MainLogLoad, modifyState,
      SetGlobalLevel, hl, h1]
  · by_cases h2 : s.Verbose = 1
    · simp [levelStep, Proc.run, bind, Proc.bind, getState, pure, MainLogLoad, modifyState,
        SetGlobalLevel, hl, h1, h2, ParseLevel]
    · by_cases h3 : s.Verbose > 1
      · simp [levelStep, Proc.run, bind, Proc.bind, getState, pure, MainLogLoad, modifyState,
          SetGlobalLevel, hl, h1, h2, h3, ParseLevel]
      · simp [levelStep, Proc.run, bind, Proc.bind, getState, pure, MainLogLoad, modifyState,
          SetGlobalLevel, hl, h1, h2, h3, ParseLevel]

/-- The second half of `InitLoggingWithBackup` panics on a nil `MainLog`. -/
theorem levelStep_nil (ws : List Writer) (s : State) (hl : s.MainLog = none) :
    (levelStep ws).run s = .panicked s := by
  simp [levelStep, Proc.run, bind, Proc.bind, getState, pure, MainLogLoad, hl]

/-- The first half of `InitLoggingWithBackup` leaves the variables alone: it
only touches the files and the two histories. -/
theorem openStep_frame (env : Env) (doBackup : Bool) (s : State) :
    ∃ fs rs cs, ((openStep env doBackup).run s).state
      = { s with files := fs, reports := rs, calls := cs } := by
  by_cases hp : NormalizeLogFilePath env s.homedir hardcodedLogPath = ""
  · exact ⟨s.files, s.reports, s.calls, by
      simp [openStep, Proc.run, bind, Proc.bind, getState, pure, hp, Outcome.state]⟩
  · cases hm : env.mkdirAllErr (env.path.Dir (NormalizeLogFilePath env s.homedir hardcodedLogPath)) with
    | some e =>
      cases hl : s.MainLog <;>
        simp [openStep, backupStep, Proc.run, bind, Proc.bind, getState, pure, MkdirAll,
          Rename, OpenLogFile, logMsg, MainLogLoad, State.record, modifyState, osExit,
          Outcome.state, hp, hm, hl]
    | none =>
      cases doBackup with
      | false =>
        cases ho : openFiles env s.files (NormalizeLogFilePath env s.homedir hardcodedLogPath)
            (O_CREATE ||| O_RDWR ||| O_APPEND) <;>
        cases hl : s.MainLog <;>
        simp [openStep, backupStep, Proc.run, bind, Proc.bind, getState, pure, MkdirAll,
          Rename, OpenLogFile, logMsg, MainLogLoad, State.record, modifyState, osExit,
          Outcome.state, hp, hm, hl, ho]
      | true =>
        cases hr : renameFiles env s.files (NormalizeLogFilePath env s.homedir hardcodedLogPath)
          (NormalizeLogFilePath env s.homedir hardcodedLogPath ++ oldLogSuffix) with
        | error e =>
          cases hn : e.IsNotExist
          · cases ho : openFiles env s.files (NormalizeLogFilePath env s.homedir hardcodedLogPath)
              (O_CREATE ||| O_RDWR ||| O_APPEND) <;>
            cases hl : s.MainLog <;>
            simp [openStep, backupStep, Proc.run, bind, Proc.bind, getState, pure, MkdirAll,
          Rename, OpenLogFile, logMsg, MainLogLoad, State.record, modifyState, osExit,
          Outcome.state, hp, hm, hl, hr, hn, ho]
          · cases ho : openFiles env s.files (NormalizeLogFilePath env s.homedir hardcodedLogPath)
              (O_CREATE ||| O_RDWR) <;>
            cases hl : s.MainLog <;>
            simp [openStep, backupStep, Proc.run, bind, Proc.bind, getState, pure, MkdirAll,
          Rename, OpenLogFile, logMsg, MainLogLoad, State.record, modifyState, osExit,
          Outcome.state, hp, hm, hl, hr, hn, ho]
        | ok fs =>
          cases ho : openFiles env fs (NormalizeLogFilePath env s.homedir hardcodedLogPath)
              (O_CREATE ||| O_RDWR) <;>
          cases hl : s.MainLog <;>
          simp [openStep, backupStep, Proc.run, bind, Proc.bind, getState, pure, MkdirAll,
          Rename, OpenLogFile, logMsg, MainLogLoad, State.record, modifyState, osExit,
          Outcome.state, hp, hm, hl, hr, ho]

/-- When `InitLoggingWithBackup` returns, the threshold it leaves depends on
`silent` and `Verbose` alone. -/
theorem InitLoggingWithBackup_returned_level (env : Env) (doBackup : Bool) (s : State)
    (ws : List Writer) (t : State)
    (h : (InitLoggingWithBackup env doBackup).run s = .returned ws t) :
    t.GlobalLevel = if s.silent = true then Level.NoLevel
      else if s.Verbose > 1 then Level.DebugLevel else Level.InfoLevel := by
  rw [InitLoggingWithBackup_eq] at h
  obtain ⟨fs, rs, cs, hf⟩ := openStep_frame env doBackup s
  cases ho : (openStep env doBackup).run s with
  | returned a u =>
    rw [run_bind_returned _ _ _ _ _ ho] at h
    rw [ho] at hf
    simp only [Outcome.state] at hf
    cases hl : u.MainLog with
    | none => rw [levelStep_nil a u hl] at h; simp at h
    | some l =>
      rw [levelStep_run a u l hl] at h
      simp only [Outcome.returned.injEq] at h
      rw [← h.2, hf]
  | exited c u => rw [run_bind_exited _ _ _ _ _ ho] at h; simp at h
  | panicked u => rw [run_bind_panicked _ _ _ _ ho] at h; simp at h

/-! ## Files -/

/-- Removing a file leaves the files at other paths as they were. -/
theorem Files.lookup_remove_other (fs : Files) (p q : String) (h : q ≠ p) :
    (fs.remove p).lookup q = fs.lookup q := by
  unfold Files.lookup Files.remove
  congr 1
  induction fs with
  | nil => rfl
  | cons e es ih =>
    by_cases he : e.1 = p
    · have hq : ¬ e.1 = q := fun e2 => h (e2.symm.trans he)
      rw [List.filter_cons_of_neg (by simpa using he), List.find?_cons_of_neg _ (by simpa using hq)]
      exact ih
    · rw [List.filter_cons_of_pos (by simpa using he)]
      by_cases hq : e.1 = q
      · rw [List.find?_cons_of_pos _ (by simpa using hq), List.find?_cons_of_pos _ (by simpa using hq)]
      · rw [List.find?_cons_of_neg _ (by simpa using hq), List.find?_cons_of_neg _ (by simpa using hq)]
        exact ih

/-- A file just written holds what was written. -/
theorem Files.lookup_write_same (fs : Files) (p c : String) :
    (fs.write p c).lookup p = some c := by
  simp [Files.write, Files.lookup]

/-- Writing a file leaves the files at other paths as they were. -/
theorem Files.lookup_write_other (fs : Files) (p q c : String) (h : q ≠ p) :
    (fs.write p c).lookup q = fs.lookup q := by
  have h1 : ¬ p = q := fun e => h e.symm
  rw [← Files.lookup_remove_other fs p q h]
  unfold Files.write Files.lookup
  rw [List.find?_cons_of_neg _ (by simpa using h1)]

/-- A path with the backup suffix differs from the path itself. -/
theorem backup_path_ne (p : String) : p ++ oldLogSuffix ≠ p := by
  intro h
  have := congrArg String.length h
  simp [oldLogSuffix, String.length_append] at this
  have h2 : ".1".length = 2 := by decide
  omega

/-- A removed file is gone. -/
theorem Files.lookup_remove_same (fs : Files) (p : String) :
    (fs.remove p).lookup p = none := by
  unfold Files.lookup Files.remove
  rw [Option.map_eq_none', List.find?_eq_none]
  intro e he
  have := (List.mem_filter.mp he).2
  simpa using this

/-- The first half of `InitLoggingWithBackup` when the old log file is there
and the directory, the rename and the open all succeed. -/
theorem openStep_rotates (env : Env) (s : State) (X : String)
    (hp : NormalizeLogFilePath env s.homedir hardcodedLogPath ≠ "")
    (hX : s.files.lookup (NormalizeLogFilePath env s.homedir hardcodedLogPath) = some X)
    (hmk : env.mkdirAllErr (env.path.Dir (NormalizeLogFilePath env s.homedir hardcodedLogPath)) = none)
    (hrn : env.renameErr (NormalizeLogFilePath env s.homedir hardcodedLogPath)
      (NormalizeLogFilePath env s.homedir hardcodedLogPath ++ oldLogSuffix) = none)
    (hop : env.openErr (NormalizeLogFilePath env s.homedir hardcodedLogPath) (O_CREATE ||| O_RDWR) = none) :
    (openStep env true).run s
      = .returned [Writer.file (NormalizeLogFilePath env s.homedir hardcodedLogPath) (O_CREATE ||| O_RDWR)]
        { s with
          files := (((s.files.remove (NormalizeLogFilePath env s.homedir hardcodedLogPath)).write
            (NormalizeLogFilePath env s.homedir hardcodedLogPath ++ oldLogSuffix) X).write
            (NormalizeLogFilePath env s.homedir hardcodedLogPath) "")
          calls := s.calls ++
            [Call.mkdirAll (env.path.Dir (NormalizeLogFilePath env s.homedir hardcodedLogPath)) none,
             Call.rename (NormalizeLogFilePath env s.homedir hardcodedLogPath)
               (NormalizeLogFilePath env s.homedir hardcodedLogPath ++ oldLogSuffix) none,
             Call.openLogFile (NormalizeLogFilePath env s.homedir hardcodedLogPath)
               (O_CREATE ||| O_RDWR) none] } := by
  have hne := backup_path_ne (NormalizeLogFilePath env s.homedir hardcodedLogPath)
  have hr : renameFiles env s.files (NormalizeLogFilePath env s.homedir hardcodedLogPath)
      (NormalizeLogFilePath env s.homedir hardcodedLogPath ++ oldLogSuffix)
      = .ok ((s.files.remove (NormalizeLogFilePath env s.homedir hardcodedLogPath)).write
          (NormalizeLogFilePath env s.homedir hardcodedLogPath ++ oldLogSuffix) X) := by
    simp [renameFiles, hrn, hX]
  have hcreate : (O_CREATE ||| O_RDWR).create = true := rfl
  have ho : openFiles env ((s.files.remove (NormalizeLogFilePath env s.homedir hardcodedLogPath)).write
      (NormalizeLogFilePath env s.homedir hardcodedLogPath ++ oldLogSuffix) X)
      (NormalizeLogFilePath env s.homedir hardcodedLogPath) (O_CREATE ||| O_RDWR)
      = .ok ((((s.files.remove (NormalizeLogFilePath env s.homedir hardcodedLogPath)).write
          (NormalizeLogFilePath env s.homedir hardcodedLogPath ++ oldLogSuffix) X).write
          (NormalizeLogFilePath env s.homedir hardcodedLogPath) "")) := by
    simp [openFiles, hop, Files.lookup_write_other _ _ _ _ (Ne.symm hne),
      Files.lookup_remove_same, hcreate]
  simp [openStep, backupStep, Proc.run, bind, Proc.bind, getState, pure, MkdirAll,
    Rename, OpenLogFile, State.record, hp, hmk, hr, ho]

/-! ## The backup step and the opening of the log file -/

/-- Without a backup the log file is to be opened in append mode. -/
theorem backupStep_noBackup (env : Env) (p : String) (s : State) :
    (backupStep env false p).run s = .returned (O_CREATE ||| O_RDWR ||| O_APPEND) s := by
  simp [backupStep, Proc.run, bind, Proc.bind, pure]

/-- A rename that succeeds leads to the non-append flags. -/
theorem backupStep_renamed (env : Env) (p : String) (s : State) (fs : Files)
    (hr : renameFiles env s.files p (p ++ oldLogSuffix) = .ok fs) :
    (backupStep env true p).run s = .returned (O_CREATE ||| O_RDWR)
      ({ s with files := fs }.record (Call.rename p (p ++ oldLogSuffix) none)) := by
  simp [backupStep, Proc.run, bind, Proc.bind, pure, Rename, hr]

/-- A rename that fails because there is no file leads to the non-append flags. -/
theorem backupStep_notExist (env : Env) (p : String) (s : State) (e : OsError)
    (hr : renameFiles env s.files p (p ++ oldLogSuffix) = .error e) (hn : e.IsNotExist = true) :
    (backupStep env true p).run s = .returned (O_CREATE ||| O_RDWR)
      (s.record (Call.rename p (p ++ oldLogSuffix) (some e))) := by
  simp [backupStep, Proc.run, bind, Proc.bind, pure, Rename, hr, hn]

/-- A rename that fails for another reason is reported and leaves the append
flags in place. -/
theorem backupStep_failed (env : Env) (p : String) (s : State) (e : OsError) (l : Logger)
    (hl : s.MainLog = some l)
    (hr : renameFiles env s.files p (p ++ oldLogSuffix) = .error e) (hn : e.IsNotExist = false) :
    (backupStep env true p).run s = .returned (O_CREATE ||| O_RDWR ||| O_APPEND)
      { s.record (Call.rename p (p ++ oldLogSuffix) (some e)) with
        reports := s.reports ++
          [{ level := Level.ErrorLevel, msg := "could not backup old log file: %v", err := some e }] } := by
  simp [backupStep, Proc.run, bind, Proc.bind, pure, Rename, hr, hn, logMsg, MainLogLoad,
    State.record, hl, modifyState]

/-- The first half of `InitLoggingWithBackup` once the directory is there and
the backup step has returned: the log file is opened, and a failure to open
it ends the process. -/
theorem openStep_after_backup (env : Env) (doBackup : Bool) (s u : State) (flags : OpenFlags)
    (l : Logger) (hl : u.MainLog = some l)
    (hp : NormalizeLogFilePath env s.homedir hardcodedLogPath ≠ "")
    (hmk : env.mkdirAllErr (env.path.Dir (NormalizeLogFilePath env s.homedir hardcodedLogPath)) = none)
    (hb : (backupStep env doBackup (NormalizeLogFilePath env s.homedir hardcodedLogPath)).run
      (s.record (Call.mkdirAll (env.path.Dir (NormalizeLogFilePath env s.homedir hardcodedLogPath)) none))
        = .returned flags u) :
    (openStep env doBackup).run s
      = match openFiles env u.files (NormalizeLogFilePath env s.homedir hardcodedLogPath) flags with
        | .ok fs =>
          .returned [Writer.file (NormalizeLogFilePath env s.homedir hardcodedLogPath) flags]
            ({ u with files := fs }.record
              (Call.openLogFile (NormalizeLogFilePath env s.homedir hardcodedLogPath) flags none))
        | .error e =>
          .exited 1
            { u.record (Call.openLogFile (NormalizeLogFilePath env s.homedir hardcodedLogPath) flags (some e)) with
              reports := u.reports ++
                [{ level := Level.ErrorLevel, msg := "failed to create log file: %v", err := some e }] } := by
  simp only [Proc.run, State.record] at hb
  cases ho : openFiles env u.files (NormalizeLogFilePath env s.homedir hardcodedLogPath) flags <;>
  simp [openStep, Proc.run, bind, Proc.bind, getState, pure, MkdirAll, OpenLogFile, hp, hmk, hb,
    ho, logMsg, MainLogLoad, State.record, hl, modifyState, osExit]

/-- The function `InitLoggingWithBackup` once the directory is there and the
backup step has returned: the log file is opened, a failure to open it ends
the process, and otherwise the second half runs. -/
theorem InitLoggingWithBackup_after_backup (env : Env) (doBackup : Bool) (s u : State)
    (p : String) (flags : OpenFlags) (l : Logger) (hl : u.MainLog = some l)
    (hpath : NormalizeLogFilePath env s.homedir hardcodedLogPath = p) (hp : p ≠ "")
    (hmk : env.mkdirAllErr (env.path.Dir p) = none)
    (hb : (backupStep env doBackup p).run (s.record (Call.mkdirAll (env.path.Dir p) none))
        = .returned flags u) :
    (InitLoggingWithBackup env doBackup).run s
      = match openFiles env u.files p flags with
        | .ok fs =>
          (levelStep [Writer.file p flags]).run
            ({ u with files := fs }.record (Call.openLogFile p flags none))
        | .error e =>
          .exited 1
            { u.record (Call.openLogFile p flags (some e)) with
              reports := u.reports ++
                [{ level := Level.ErrorLevel, msg := "failed to create log file: %v", err := some e }] } := by
  subst hpath
  have ho := openStep_after_backup env doBackup s u flags l hl hp hmk hb
  rw [InitLoggingWithBackup_eq]
  cases hf : openFiles env u.files (NormalizeLogFilePath env s.homedir hardcodedLogPath) flags with
  | ok fs =>
    rw [hf] at ho
    rw [run_bind_returned _ _ _ _ _ ho]
  | error e =>
    rw [hf] at ho
    rw [run_bind_exited _ _ _ _ _ ho]

/-- What a run of `InitLoggingWithBackup` adds once the backup step has
returned: one call that opens the log file with the flags of the backup step;
the run returns if that call succeeds and exits only if it fails; a file that
is there and is not truncated keeps its content. -/
theorem InitLoggingWithBackup_open_call (env : Env) (doBackup : Bool) (s u : State)
    (p : String) (flags : OpenFlags) (l : Logger) (hl : u.MainLog = some l)
    (hpath : NormalizeLogFilePath env s.homedir hardcodedLogPath = p) (hp : p ≠ "")
    (hmk : env.mkdirAllErr (env.path.Dir p) = none)
    (hb : (backupStep env doBackup p).run (s.record (Call.mkdirAll (env.path.Dir p) none))
        = .returned flags u) :
    ∃ err,
      ((InitLoggingWithBackup env doBackup).run s).state.calls
        = u.calls ++ [Call.openLogFile p flags err] ∧
      (∀ r ∈ u.reports, r ∈ ((InitLoggingWithBackup env doBackup).run s).state.reports) ∧
      (err = none → ∃ ws t, (InitLoggingWithBackup env doBackup).run s = .returned ws t ∧
        (flags.trunc = false → ∀ X, u.files.lookup p = some X → t.files = u.files)) ∧
      (∀ c t, (InitLoggingWithBackup env doBackup).run s = .exited c t → err ≠ none) := by
  rw [InitLoggingWithBackup_after_backup env doBackup s u p flags l hl hpath hp hmk hb]
  cases hf : openFiles env u.files p flags with
  | ok fs =>
    refine ⟨none, ?_, ?_, ?_, ?_⟩
    · simp only []
      rw [levelStep_run _ _ l (by exact hl)]
      rfl
    · simp only []
      rw [levelStep_run _ _ l (by exact hl)]
      intro r hr
      exact hr
    · intro _
      simp only []
      rw [levelStep_run _ _ l (by exact hl)]
      refine ⟨_, _, rfl, ?_⟩
      intro ht X hX
      show fs = u.files
      simp only [openFiles] at hf
      cases he : env.openErr p flags with
      | some e => simp [he] at hf
      | none => simp [he, hX, ht] at hf; exact hf.symm
    · intro c t h
      simp only [] at h
      rw [levelStep_run _ _ l (by exact hl)] at h
      simp at h
  | error e =>
    refine ⟨some e, rfl, ?_, ?_, ?_⟩
    · intro r hr
      simp only [Outcome.state, State.record]
      exact List.mem_append_left _ hr
    · intro h; simp at h
    · intro c t _; simp

/-- With a logger in `MainLog`, the first half of `InitLoggingWithBackup` does
not panic, and it exits, with status 1, exactly when one of the calls it made
is a failed `MkdirAll` or a failed `OpenLogFile`. -/
theorem openStep_outcome (env : Env) (doBackup : Bool) (s : State) (l : Logger)
    (hl : s.MainLog = some l) :
    ((openStep env doBackup).run s).exitCode?
      = (if (((openStep env doBackup).run s).newCalls s).any Call.isFatal then some 1 else none) ∧
    ((openStep env doBackup).run s).panics = false := by
  by_cases hp : NormalizeLogFilePath env s.homedir hardcodedLogPath = ""
  · simp [openStep, Proc.run, bind, Proc.bind, getState, pure, hp, Outcome.exitCode?,
      Outcome.newCalls, Outcome.state, Outcome.panics]
  · cases hm : env.mkdirAllErr (env.path.Dir (NormalizeLogFilePath env s.homedir hardcodedLogPath)) with
    | some e =>
      simp [openStep, backupStep, Proc.run, bind, Proc.bind, getState, pure, MkdirAll,
          Rename, OpenLogFile, logMsg, MainLogLoad, State.record, modifyState, osExit,
          Outcome.exitCode?, Outcome.newCalls, Outcome.state, Outcome.panics,
          Call.isFatal, hp, hm, hl]
    | none =>
      cases doBackup with
      | false =>
        cases ho : openFiles env s.files (NormalizeLogFilePath env s.homedir hardcodedLogPath)
            (O_CREATE ||| O_RDWR ||| O_APPEND) <;>
        simp [openStep, backupStep, Proc.run, bind, Proc.bind, getState, pure, MkdirAll,
          Rename, OpenLogFile, logMsg, MainLogLoad, State.record, modifyState, osExit,
          Outcome.exitCode?, Outcome.newCalls, Outcome.state, Outcome.panics,
          Call.isFatal, hp, hm, hl, ho]
      | true =>
        cases hr : renameFiles env s.files (NormalizeLogFilePath env s.homedir hardcodedLogPath)
          (NormalizeLogFilePath env s.homedir hardcodedLogPath ++ oldLogSuffix) with
        | error e =>
          cases hn : e.IsNotExist
          · cases ho : openFiles env s.files (NormalizeLogFilePath env s.homedir hardcodedLogPath)
              (O_CREATE ||| O_RDWR ||| O_APPEND) <;>
            simp [openStep, backupStep, Proc.run, bind, Proc.bind, getState, pure, MkdirAll,
              Rename, OpenLogFile, logMsg, MainLogLoad, State.record, modifyState, osExit,
              Outcome.exitCode?, Outcome.newCalls, Outcome.state, Outcome.panics,
              Call.isFatal, hp, hm, hl, hr, hn, ho]
          · cases ho : openFiles env s.files (NormalizeLogFilePath env s.homedir hardcodedLogPath)
              (O_CREATE ||| O_RDWR) <;>
            simp [openStep, backupStep, Proc.run, bind, Proc.bind, getState, pure, MkdirAll,
              Rename, OpenLogFile, logMsg, MainLogLoad, State.record, modifyState, osExit,
              Outcome.exitCode?, Outcome.newCalls, Outcome.state, Outcome.panics,
              Call.isFatal, hp, hm, hl, hr, hn, ho]
        | ok fs =>
          cases ho : openFiles env fs (NormalizeLogFilePath env s.homedir hardcodedLogPath)
              (O_CREATE ||| O_RDWR) <;>
          simp [openStep, backupStep, Proc.run, bind, Proc.bind, getState, pure, MkdirAll,
            Rename, OpenLogFile, logMsg, MainLogLoad, State.record, modifyState, osExit,
            Outcome.exitCode?, Outcome.newCalls, Outcome.state, Outcome.panics,
            Call.isFatal, hp, hm, hl, hr, ho]

/-- A list of calls holds a fatal one exactly when it holds a failed
`MkdirAll` or a failed `OpenLogFile`. -/
theorem any_isFatal_iff (cs : List Call) :
    cs.any Call.isFatal = true ↔
      ((∃ d e, Call.mkdirAll d (some e) ∈ cs) ∨ (∃ q f e, Call.openLogFile q f (some e) ∈ cs)) := by
  rw [List.any_eq_true]
  constructor
  · rintro ⟨c, hc, hf⟩
    cases c with
    | mkdirAll d err =>
      cases err with
      | none => simp [Call.isFatal] at hf
      | some e => exact Or.inl ⟨d, e, hc⟩
    | rename a b err => simp [Call.isFatal] at hf
    | openLogFile q f err =>
      cases err with
      | none => simp [Call.isFatal] at hf
      | some e => exact Or.inr ⟨q, f, e, hc⟩
  · rintro (⟨d, e, h⟩ | ⟨q, f, e, h⟩)
    · exact ⟨_, h, rfl⟩
    · exact ⟨_, h, rfl⟩


/-! ## The logger in `MainLog` -/

/-- Started with a logger in `MainLog`, `InitLoggingWithBackup` does not
panic and ends, however it ends, with a logger in `MainLog`. -/
theorem InitLoggingWithBackup_keeps_logger (env : Env) (doBackup : Bool) (s : State)
    (hM : s.MainLog ≠ none) :
    ((InitLoggingWithBackup env doBackup).run s).state.MainLog ≠ none ∧
    ((InitLoggingWithBackup env doBackup).run s).panics = false := by
  obtain ⟨l, hl⟩ := Option.ne_none_iff_exists'.mp hM
  obtain ⟨_, hpanic⟩ := openStep_outcome env doBackup s l hl
  obtain ⟨fs, rs, cs, hf⟩ := openStep_frame env doBackup s
  rw [InitLoggingWithBackup_eq]
  cases ho : (openStep env doBackup).run s with
  | returned a u =>
    rw [ho] at hf
    simp only [Outcome.state] at hf
    have hlu : u.MainLog = some l := by rw [hf]; exact hl
    rw [run_bind_returned _ _ _ _ _ ho, levelStep_run _ _ l hlu]
    simp [Outcome.state, Outcome.panics]
  | exited c u =>
    rw [ho] at hf
    simp only [Outcome.state] at hf
    rw [run_bind_exited _ _ _ _ _ ho]
    simp [Outcome.state, Outcome.panics, hf, hl]
  | panicked u =>
    rw [ho] at hpanic
    simp [Outcome.panics] at hpanic

/-- Started with a logger in `MainLog`, `InitConsoleLogging` returns with a
logger in `MainLog`. -/
theorem InitConsoleLogging_keeps_logger (s : State) (hM : s.MainLog ≠ none) :
    ∃ t, InitConsoleLogging.run s = .returned () t ∧ t.MainLog ≠ none := by
  obtain ⟨l, hl⟩ := Option.ne_none_iff_exists'.mp hM
  simp only [InitConsoleLogging, Proc.run, bind, Proc.bind, modifyState, getState,
    SetGlobalLevel, MainLogLoad, pure, hl]
  split_ifs <;> exact ⟨_, rfl, by simp⟩

/-- How `initInteractiveLogging` ends, from how the call of
`InitLoggingWithBackup` inside it ends. -/
theorem initInteractiveLogging_run (env : Env) (s : State) :
    (initInteractiveLogging env).run s
      = match (InitLoggingWithBackup env false).run
          { s with CfgServiceLogPath := "", TimeFieldFormat := RFC3339 ++ ".000" } with
        | .returned _ t =>
          .returned () { t with CfgServiceLogPath := s.CfgServiceLogPath,
                                ProxyLogger := some (Logger.New Writer.discard) }
        | .exited c t => .exited c t
        | .panicked t => .panicked t := by
  simp only [initInteractiveLogging, Proc.run, bind, Proc.bind, modifyState, getState, pure]
  cases h : InitLoggingWithBackup env false
      { s with CfgServiceLogPath := "", TimeFieldFormat := RFC3339 ++ ".000" } <;> rfl

/-- Started with a logger in `MainLog`, `initInteractiveLogging` does not
panic and ends, however it ends, with a logger in `MainLog`. -/
theorem initInteractiveLogging_keeps_logger (env : Env) (s : State) (hM : s.MainLog ≠ none) :
    ((initInteractiveLogging env).run s).state.MainLog ≠ none ∧
    ((initInteractiveLogging env).run s).panics = false := by
  have h := InitLoggingWithBackup_keeps_logger env false
    { s with CfgServiceLogPath := "", TimeFieldFormat := RFC3339 ++ ".000" } hM
  rw [initInteractiveLogging_run]
  cases ho : (InitLoggingWithBackup env false).run
      { s with CfgServiceLogPath := "", TimeFieldFormat := RFC3339 ++ ".000" } with
  | returned a t => rw [ho] at h; simpa [Outcome.state, Outcome.panics] using h
  | exited c t => rw [ho] at h; simpa [Outcome.state, Outcome.panics] using h
  | panicked t => rw [ho] at h; simp [Outcome.panics] at h

/-! ## Independence from the configured log path -/

/-- The first half of `InitLoggingWithBackup` does the same whatever the
configured log path is. -/
theorem openStep_withLogConfig (env : Env) (doBackup : Bool) (s : State) (a c : String) :
    (openStep env doBackup).run (s.withLogConfig a c)
      = ((openStep env doBackup).run s).mapState (fun t => t.withLogConfig a c) := by
  by_cases hp : NormalizeLogFilePath env s.homedir hardcodedLogPath = ""
  · simp [openStep, Proc.run, bind, Proc.bind, getState, pure, hp, Outcome.mapState,
      State.withLogConfig]
  · cases hm : env.mkdirAllErr (env.path.Dir (NormalizeLogFilePath env s.homedir hardcodedLogPath)) with
    | some e =>
      cases hl : s.MainLog <;>
        simp [openStep, backupStep, Proc.run, bind, Proc.bind, getState, pure, MkdirAll,
          Rename, OpenLogFile, logMsg, MainLogLoad, State.record, modifyState, osExit,
          Outcome.mapState, State.withLogConfig, hp, hm, hl]
    | none =>
      cases doBackup with
      | false =>
        cases ho : openFiles env s.files (NormalizeLogFilePath env s.homedir hardcodedLogPath)
            (O_CREATE ||| O_RDWR ||| O_APPEND) <;>
        cases hl : s.MainLog <;>
        simp [openStep, backupStep, Proc.run, bind, Proc.bind, getState, pure, MkdirAll,
          Rename, OpenLogFile, logMsg, MainLogLoad, State.record, modifyState, osExit,
          Outcome.mapState, State.withLogConfig, hp, hm, hl, ho]
      | true =>
        cases hr : renameFiles env s.files (NormalizeLogFilePath env s.homedir hardcodedLogPath)
          (NormalizeLogFilePath env s.homedir hardcodedLogPath ++ oldLogSuffix) with
        | error e =>
          cases hn : e.IsNotExist
          · cases ho : openFiles env s.files (NormalizeLogFilePath env s.homedir hardcodedLogPath)
              (O_CREATE ||| O_RDWR ||| O_APPEND) <;>
            cases hl : s.MainLog <;>
            simp [openStep, backupStep, Proc.run, bind, Proc.bind, getState, pure, MkdirAll,
          Rename, OpenLogFile, logMsg, MainLogLoad, State.record, modifyState, osExit,
          Outcome.mapState, State.withLogConfig, hp, hm, hl, hr, hn, ho]
          · cases ho : openFiles env s.files (NormalizeLogFilePath env s.homedir hardcodedLogPath)
              (O_CREATE ||| O_RDWR) <;>
            cases hl : s.MainLog <;>
            simp [openStep, backupStep, Proc.run, bind, Proc.bind, getState, pure, MkdirAll,
          Rename, OpenLogFile, logMsg, MainLogLoad, State.record, modifyState, osExit,
          Outcome.mapState, State.withLogConfig, hp, hm, hl, hr, hn, ho]
        | ok fs =>
          cases ho : openFiles env fs (NormalizeLogFilePath env s.homedir hardcodedLogPath)
              (O_CREATE ||| O_RDWR) <;>
          cases hl : s.MainLog <;>
          simp [openStep, backupStep, Proc.run, bind, Proc.bind, getState, pure, MkdirAll,
          Rename, OpenLogFile, logMsg, MainLogLoad, State.record, modifyState, osExit,
          Outcome.mapState, State.withLogConfig, hp, hm, hl, hr, ho]

/-- The second half of `InitLoggingWithBackup` does the same whatever the
configured log path is. -/
theorem levelStep_withLogConfig (ws : List Writer) (s : State) (a c : String) :
    (levelStep ws).run (s.withLogConfig a c)
      = ((levelStep ws).run s).mapState (fun t => t.withLogConfig a c) := by
  cases hl : s.MainLog with
  | none =>
    rw [levelStep_nil ws s hl, levelStep_nil ws _ (by exact hl)]
    rfl
  | some l =>
    rw [levelStep_run ws s l hl, levelStep_run ws _ l (by exact hl)]
    rfl

/-- The function `InitLoggingWithBackup` does the same whatever the configured
log path is. -/
theorem InitLoggingWithBackup_withLogConfig (env : Env) (doBackup : Bool) (s : State)
    (a c : String) :
    (InitLoggingWithBackup env doBackup).run (s.withLogConfig a c)
      = ((InitLoggingWithBackup env doBackup).run s).mapState (fun t => t.withLogConfig a c) := by
  rw [InitLoggingWithBackup_eq, InitLoggingWithBackup_eq, run_bind, run_bind,
    openStep_withLogConfig]
  cases (openStep env doBackup).run s with
  | returned ws u =>
    simp only [Outcome.mapState]
    exact levelStep_withLogConfig ws u a c
  | exited k u => rfl
  | panicked u => rfl

/-- Every call of the first half of `InitLoggingWithBackup` works on the
normalised hard-coded path. -/
theorem openStep_onPath (env : Env) (doBackup : Bool) (s : State) :
    (((openStep env doBackup).run s).newCalls s).all
      (Call.onPath (env.path.Dir (NormalizeLogFilePath env s.homedir hardcodedLogPath)) (NormalizeLogFilePath env s.homedir hardcodedLogPath)) = true := by
  by_cases hp : NormalizeLogFilePath env s.homedir hardcodedLogPath = ""
  · simp [openStep, Proc.run, bind, Proc.bind, getState, pure, hp, Outcome.newCalls,
      Outcome.state]
  · cases hm : env.mkdirAllErr (env.path.Dir (NormalizeLogFilePath env s.homedir hardcodedLogPath)) with
    | some e =>
      cases hl : s.MainLog <;>
        simp [openStep, backupStep, Proc.run, bind, Proc.bind, getState, pure, MkdirAll,
          Rename, OpenLogFile, logMsg, MainLogLoad, State.record, modifyState, osExit,
          Outcome.newCalls, Outcome.state, Call.onPath, hp, hm, hl]
    | none =>
      cases doBackup with
      | false =>
        cases ho : openFiles env s.files (NormalizeLogFilePath env s.homedir hardcodedLogPath)
            (O_CREATE ||| O_RDWR ||| O_APPEND) <;>
        cases hl : s.MainLog <;>
        simp [openStep, backupStep, Proc.run, bind, Proc.bind, getState, pure, MkdirAll,
          Rename, OpenLogFile, logMsg, MainLogLoad, State.record, modifyState, osExit,
          Outcome.newCalls, Outcome.state, Call.onPath, hp, hm, hl, ho]
      | true =>
        cases hr : renameFiles env s.files (NormalizeLogFilePath env s.homedir hardcodedLogPath)
          (NormalizeLogFilePath env s.homedir hardcodedLogPath ++ oldLogSuffix) with
        | error e =>
          cases hn : e.IsNotExist
          · cases ho : openFiles env s.files (NormalizeLogFilePath env s.homedir hardcodedLogPath)
              (O_CREATE ||| O_RDWR ||| O_APPEND) <;>
            cases hl : s.MainLog <;>
            simp [openStep, backupStep, Proc.run, bind, Proc.bind, getState, pure, MkdirAll,
          Rename, OpenLogFile, logMsg, MainLogLoad, State.record, modifyState, osExit,
          Outcome.newCalls, Outcome.state, Call.onPath, hp, hm, hl, hr, hn, ho]
          · cases ho : openFiles env s.files (NormalizeLogFilePath env s.homedir hardcodedLogPath)
              (O_CREATE ||| O_RDWR) <;>
            cases hl : s.MainLog <;>
            simp [openStep, backupStep, Proc.run, bind, Proc.bind, getState, pure, MkdirAll,
          Rename, OpenLogFile, logMsg, MainLogLoad, State.record, modifyState, osExit,
          Outcome.newCalls, Outcome.state, Call.onPath, hp, hm, hl, hr, hn, ho]
        | ok fs =>
          cases ho : openFiles env fs (NormalizeLogFilePath env s.homedir hardcodedLogPath)
              (O_CREATE ||| O_RDWR) <;>
          cases hl : s.MainLog <;>
          simp [openStep, backupStep, Proc.run, bind, Proc.bind, getState, pure, MkdirAll,
          Rename, OpenLogFile, logMsg, MainLogLoad, State.record, modifyState, osExit,
          Outcome.newCalls, Outcome.state, Call.onPath, hp, hm, hl, hr, ho]

/-- The second half of `InitLoggingWithBackup` makes no file-system call. -/
theorem levelStep_calls (ws : List Writer) (s : State) :
    ((levelStep ws).run s).state.calls = s.calls := by
  cases hl : s.MainLog with
  | none => rw [levelStep_nil ws s hl]; rfl
  | some l => rw [levelStep_run ws s l hl]; rfl

/-- Every call of `InitLoggingWithBackup` works on the normalised hard-coded
path. -/
theorem InitLoggingWithBackup_onPath (env : Env) (doBackup : Bool) (s : State) :
    ∀ c ∈ ((InitLoggingWithBackup env doBackup).run s).newCalls s,
      c.onPath (env.path.Dir (NormalizeLogFilePath env s.homedir hardcodedLogPath)) (NormalizeLogFilePath env s.homedir hardcodedLogPath) = true := by
  have h := openStep_onPath env doBackup s
  rw [List.all_eq_true] at h
  rw [InitLoggingWithBackup_eq]
  cases ho : (openStep env doBackup).run s with
  | returned ws u =>
    rw [ho] at h
    rw [run_bind_returned _ _ _ _ _ ho]
    simp only [Outcome.newCalls] at h ⊢
    rw [levelStep_calls]
    exact h
  | exited k u =>
    rw [ho] at h
    rw [run_bind_exited _ _ _ _ _ ho]
    exact h
  | panicked u =>
    rw [ho] at h
    rw [run_bind_panicked _ _ _ _ ho]
    exact h

/-- The function `unixClean` never returns the empty string. -/
theorem unixClean_ne_empty (p : String) : unixClean p ≠ "" := by
  unfold unixClean
  simp only []
  split_ifs with h1 h2 h2
  · decide
  · exact h2
  · decide
  · exact h2

/-- On a Unix system a join with a non-empty last element is not empty. -/
theorem unixJoin_ne_empty (a b : String) (hb : b ≠ "") : unixPath.Join a b ≠ "" := by
  show unixJoin a b ≠ ""
  unfold unixJoin
  split_ifs
  · exact unixClean_ne_empty _
  · exact unixClean_ne_empty _

/-- If joins with a non-empty last element are not empty, a non-empty path
stays non-empty under normalisation. -/
theorem NormalizeLogFilePath_ne_empty (env : Env) (homedir p : String)
    (hJ : ∀ a b, b ≠ "" → env.path.Join a b ≠ "") (hp : p ≠ "") :
    NormalizeLogFilePath env homedir p ≠ "" := by
  unfold NormalizeLogFilePath
  simp only []
  split_ifs
  · exact hp
  · exact hJ _ _ hp
  · exact hp
  · exact hJ _ _ hp

/-- A call of `initInteractiveLogging` with a logger in `MainLog` and a
non-empty normalised path: whenever it returns, `Cfg.Service.LogPath` is back
to what it was and the logger in `MainLog` writes to the log file, opened in
append mode, and to the console; and it does return if the directory can be
created and the file opened. -/
theorem initInteractiveLogging_file_writer (env : Env) (s : State) (l : Logger)
    (hl : s.MainLog = some l) (hp : NormalizeLogFilePath env s.homedir hardcodedLogPath ≠ "") :
    (∀ t, (initInteractiveLogging env).run s = .returned () t →
      t.CfgServiceLogPath = s.CfgServiceLogPath ∧
      t.MainLog = some (l.Output
        [Writer.file (NormalizeLogFilePath env s.homedir hardcodedLogPath) (O_CREATE ||| O_RDWR ||| O_APPEND),
         Writer.console s.consoleWriter])) ∧
    (env.mkdirAllErr (env.path.Dir (NormalizeLogFilePath env s.homedir hardcodedLogPath)) = none →
      env.openErr (NormalizeLogFilePath env s.homedir hardcodedLogPath) (O_CREATE ||| O_RDWR ||| O_APPEND) = none →
      ∃ t, (initInteractiveLogging env).run s = .returned () t) := by
  rw [initInteractiveLogging_run]
  cases hm : env.mkdirAllErr (env.path.Dir (NormalizeLogFilePath env s.homedir hardcodedLogPath)) with
  | some e =>
    have ho : (openStep env false).run
        { s with CfgServiceLogPath := "", TimeFieldFormat := RFC3339 ++ ".000" }
        = .exited 1
          { s with CfgServiceLogPath := "", TimeFieldFormat := RFC3339 ++ ".000",
                    reports := s.reports ++
                      [Report.mk Level.ErrorLevel "failed to create log path: %v" (some e)],
                    calls := s.calls ++ [Call.mkdirAll (env.path.Dir (NormalizeLogFilePath env s.homedir hardcodedLogPath)) (some e)] } := by
      simp [openStep, Proc.run, bind, Proc.bind, getState, pure, MkdirAll, logMsg, MainLogLoad,
        State.record, modifyState, osExit, hp, hm, hl]
    rw [InitLoggingWithBackup_eq, run_bind_exited _ _ _ _ _ ho]
    simp
  | none =>
    rw [InitLoggingWithBackup_after_backup env false
      { s with CfgServiceLogPath := "", TimeFieldFormat := RFC3339 ++ ".000" } _
      (NormalizeLogFilePath env s.homedir hardcodedLogPath) _ l (by exact hl) rfl hp hm (backupStep_noBackup env _ _)]
    cases hf : openFiles env s.files (NormalizeLogFilePath env s.homedir hardcodedLogPath) (O_CREATE ||| O_RDWR ||| O_APPEND) with
    | error e =>
      have hf2 : openFiles env
          ({ s with CfgServiceLogPath := "", TimeFieldFormat := RFC3339 ++ ".000" }.record
            (Call.mkdirAll (env.path.Dir (NormalizeLogFilePath env s.homedir hardcodedLogPath)) none)).files
          (NormalizeLogFilePath env s.homedir hardcodedLogPath) (O_CREATE ||| O_RDWR ||| O_APPEND) = .error e := hf
      rw [hf2]
      refine ⟨fun t ht => by simp at ht, fun _ hop => ?_⟩
      have hc : (O_CREATE ||| O_RDWR ||| O_APPEND : OpenFlags).create = true := rfl
      unfold openFiles at hf
      rw [hop] at hf
      cases hlk : s.files.lookup (NormalizeLogFilePath env s.homedir hardcodedLogPath) <;>
        rw [hlk] at hf <;> simp [hc] at hf
    | ok fs =>
      have hf2 : openFiles env
          ({ s with CfgServiceLogPath := "", TimeFieldFormat := RFC3339 ++ ".000" }.record
            (Call.mkdirAll (env.path.Dir (NormalizeLogFilePath env s.homedir hardcodedLogPath)) none)).files
          (NormalizeLogFilePath env s.homedir hardcodedLogPath) (O_CREATE ||| O_RDWR ||| O_APPEND) = .ok fs := hf
      rw [hf2]
      simp only []
      rw [levelStep_run _ _ l (by exact hl)]
      refine ⟨fun t ht => ?_, fun _ _ => ⟨_, rfl⟩⟩
      simp only [Outcome.returned.injEq, true_and] at ht
      subst ht
      exact ⟨rfl, rfl⟩

/-! ## Path normalisation -/

/-- C1: an empty path, an absolute path, and any path when the process runs
interactively, are returned unchanged, whatever the homedir override and the
user's home directory are. -/
theorem NormalizeLogFilePath_unchanged (env : Env) (homedir p : String)
    (h : p = "" ∨ env.path.IsAbs p = true ∨ env.interactive = true) :
    NormalizeLogFilePath env homedir p = p := by
  unfold NormalizeLogFilePath
  rw [if_pos h]

/-- Witness of C1: an absolute path on a Unix system. -/
theorem NormalizeLogFilePath_unchanged_witness :
    NormalizeLogFilePath unixEnv "/opt/ctrld" "/var/log/ctrld.log"
      = "/var/log/ctrld.log" :=
  NormalizeLogFilePath_unchanged unixEnv "/opt/ctrld" "/var/log/ctrld.log"
    (Or.inr (Or.inl (by decide)))

/-- C2: for a non-empty relative path outside interactive runs, a non-empty
homedir override is joined with the path whatever the user's home directory
resolves to; with an empty override, a home directory that resolves to a
non-empty `d` is joined with the path. -/
theorem NormalizeLogFilePath_joins_home (env : Env) (homedir p : String)
    (hp : p ≠ "") (hrel : env.path.IsAbs p = false) (hni : env.interactive = false) :
    (homedir ≠ "" → ∀ r : Except OsError String,
        NormalizeLogFilePath { env with UserHomeDir := r } homedir p = env.path.Join homedir p) ∧
    (homedir = "" → ∀ d : String, env.UserHomeDir = .ok d → d ≠ "" →
        NormalizeLogFilePath env homedir p = env.path.Join d p) := by
  constructor
  · intro hh r
    simp [NormalizeLogFilePath, hp, hrel, hni, hh]
  · intro hh d hd hne
    simp [NormalizeLogFilePath, hp, hrel, hni, hh, hd, hne]

/-- Witness of C2: a relative path on a Unix system, first with an override
and a failing home directory, then with the home directory alone. -/
theorem NormalizeLogFilePath_joins_home_witness :
    NormalizeLogFilePath { unixEnv with UserHomeDir := .error OsError.other }
        "/opt/ctrld" "log/ctrld.log" = "/opt/ctrld/log/ctrld.log" ∧
    NormalizeLogFilePath unixEnv "" "log/ctrld.log" = "/home/ctrld/log/ctrld.log" :=
  ⟨(NormalizeLogFilePath_joins_home unixEnv "/opt/ctrld" "log/ctrld.log"
      (by decide) (by decide) rfl).1 (by decide) (.error OsError.other),
   (NormalizeLogFilePath_joins_home unixEnv "" "log/ctrld.log"
      (by decide) (by decide) rfl).2 rfl "/home/ctrld" rfl (by decide)⟩

/-- C3: for a non-empty relative path outside interactive runs and with an
empty homedir override, a failing `UserHomeDir` leaves the path unchanged. -/
theorem NormalizeLogFilePath_home_failure (env : Env) (homedir p : String) (e : OsError)
    (_hp : p ≠ "") (_hrel : env.path.IsAbs p = false) (_hni : env.interactive = false)
    (hh : homedir = "") (hfail : env.UserHomeDir = .error e) :
    NormalizeLogFilePath env homedir p = p := by
  simp [NormalizeLogFilePath, hh, hfail]

/-- Witness of C3: a relative path on a Unix system without a home directory. -/
theorem NormalizeLogFilePath_home_failure_witness :
    NormalizeLogFilePath { unixEnv with UserHomeDir := .error OsError.notExist } ""
      "log/ctrld.log" = "log/ctrld.log" :=
  NormalizeLogFilePath_home_failure { unixEnv with UserHomeDir := .error OsError.notExist } ""
    "log/ctrld.log" OsError.notExist (by decide) (by decide) rfl rfl rfl

/-! ## Severity thresholds -/

/-- C5: `InitConsoleLogging`, run where `MainLog` holds a logger, returns and
leaves the threshold at NoLevel if silent, whatever the verbose count is;
otherwise at Info for a count of 1, Debug for a count above 1, and Notice for
every other count, negative ones included. -/
theorem InitConsoleLogging_level (silent : Bool) (v : Int) (s : State)
    (h : s.MainLog ≠ none) :
    ∃ t, InitConsoleLogging.run { s with silent := silent, Verbose := v } = .returned () t ∧
      (silent = true → t.GlobalLevel = Level.NoLevel) ∧
      (silent = false → v = 1 → t.GlobalLevel = Level.InfoLevel) ∧
      (silent = false → v > 1 → t.GlobalLevel = Level.DebugLevel) ∧
      (silent = false → v < 1 → t.GlobalLevel = Level.NoticeLevel) := by
  obtain ⟨l, hl⟩ := Option.ne_none_iff_exists'.mp h
  simp only [InitConsoleLogging, Proc.run, bind, Proc.bind, modifyState, getState,
    SetGlobalLevel, MainLogLoad, pure, hl]
  split_ifs with h1 h2 h3
  · exact ⟨_, rfl, fun _ => rfl, by simp [h1], by simp [h1], by simp [h1]⟩
  · exact ⟨_, rfl, by simp [h1], fun _ _ => rfl, by omega, by omega⟩
  · exact ⟨_, rfl, by simp [h1], by omega, fun _ _ => rfl, by omega⟩
  · exact ⟨_, rfl, by simp [h1], by omega, by omega, fun _ _ => rfl⟩

/-- Witness of C5: a negative verbose count after package initialisation
gives the Notice threshold. -/
theorem InitConsoleLogging_level_witness :
    ∃ t, InitConsoleLogging.run { initState with silent := false, Verbose := -2 }
        = .returned () t ∧ t.GlobalLevel = Level.NoticeLevel :=
  (InitConsoleLogging_level false (-2) initState (by decide)).elim
    fun t ht => ⟨t, ht.1, ht.2.2.2.2 rfl (by decide)⟩

/-- The thresholds of `InitLoggingWithBackup` as the code sets them: whenever
it returns, the threshold is NoLevel if silent; otherwise Info for a verbose
count of 0 or 1 and Debug for a count of 2 or more, whatever `doBackup` and
the threshold before the call were. -/
theorem InitLoggingWithBackup_level (silent : Bool) (v : Int)
    (env : Env) (doBackup : Bool) (s : State) (ws : List Writer) (t : State)
    (h : (InitLoggingWithBackup env doBackup).run { s with silent := silent, Verbose := v }
      = .returned ws t) :
    (silent = true → t.GlobalLevel = Level.NoLevel) ∧
    (silent = false → v = 0 → t.GlobalLevel = Level.InfoLevel) ∧
    (silent = false → v = 1 → t.GlobalLevel = Level.InfoLevel) ∧
    (silent = false → v ≥ 2 → t.GlobalLevel = Level.DebugLevel) := by
  have key := InitLoggingWithBackup_returned_level env doBackup _ ws t h
  simp only at key
  refine ⟨fun hs => ?_, fun hs h0 => ?_, fun hs h1 => ?_, fun hs h2 => ?_⟩
  · rw [key, if_pos hs]
  · rw [key, if_neg (by simp [hs]), if_neg (by omega)]
  · rw [key, if_neg (by simp [hs]), if_neg (by omega)]
  · rw [key, if_neg (by simp [hs]), if_pos (by omega)]

/-- A first start without flags on a Unix system returns with the Info
threshold. -/
theorem InitLoggingWithBackup_level_witness :
    ∃ ws t, (InitLoggingWithBackup unixEnv true).run
        { initState with silent := false, Verbose := 0 } = .returned ws t ∧
      t.GlobalLevel = Level.InfoLevel :=
  ⟨_, _, rfl, (InitLoggingWithBackup_level false 0 unixEnv true initState _ _ rfl).2.1
    rfl rfl⟩

/-- C4 at a verbose count of 0: the level table gives Notice there, but
without `silent` and with a count of 0 `InitLoggingWithBackup` returns and
leaves the threshold at Info, the level of its hard-coded `logLevel`. -/
theorem InitLoggingWithBackup_level_zero_is_info :
    ∃ ws t, (InitLoggingWithBackup unixEnv false).run
        { initState with silent := false, Verbose := 0 } = .returned ws t ∧
      t.GlobalLevel = Level.InfoLevel ∧ t.GlobalLevel ≠ Level.NoticeLevel :=
  ⟨_, _, rfl, rfl, by decide⟩

/-! ## Rotation and open modes -/

/-- The end state of a rotation: when the resolved log path holds a file with
content `X` and the directory, the rename and the open succeed,
`InitLoggingWithBackup(true)` returns with a backup at the path plus `.1`
holding exactly `X` and a new, empty file at the path; the flags of the open
call are `O_CREATE|O_RDWR`. -/
theorem InitLoggingWithBackup_rotates (env : Env) (s : State) (X : String)
    (hM : s.MainLog ≠ none)
    (hp : NormalizeLogFilePath env s.homedir hardcodedLogPath ≠ "")
    (hX : s.files.lookup (NormalizeLogFilePath env s.homedir hardcodedLogPath) = some X)
    (hmk : env.mkdirAllErr (env.path.Dir (NormalizeLogFilePath env s.homedir hardcodedLogPath)) = none)
    (hrn : env.renameErr (NormalizeLogFilePath env s.homedir hardcodedLogPath)
      (NormalizeLogFilePath env s.homedir hardcodedLogPath ++ oldLogSuffix) = none)
    (hop : env.openErr (NormalizeLogFilePath env s.homedir hardcodedLogPath) (O_CREATE ||| O_RDWR) = none) :
    ∃ t, (InitLoggingWithBackup env true).run s
        = .returned [Writer.file (NormalizeLogFilePath env s.homedir hardcodedLogPath) (O_CREATE ||| O_RDWR),
            Writer.console s.consoleWriter] t ∧
      t.files.lookup (NormalizeLogFilePath env s.homedir hardcodedLogPath ++ oldLogSuffix) = some X ∧
      t.files.lookup (NormalizeLogFilePath env s.homedir hardcodedLogPath) = some "" ∧
      t.calls = s.calls ++
        [Call.mkdirAll (env.path.Dir (NormalizeLogFilePath env s.homedir hardcodedLogPath)) none,
         Call.rename (NormalizeLogFilePath env s.homedir hardcodedLogPath)
           (NormalizeLogFilePath env s.homedir hardcodedLogPath ++ oldLogSuffix) none,
         Call.openLogFile (NormalizeLogFilePath env s.homedir hardcodedLogPath)
           (O_CREATE ||| O_RDWR) none] ∧
      (O_CREATE ||| O_RDWR : OpenFlags)
        = { rdwr := true, create := true, append := false, trunc := false } := by
  obtain ⟨l, hl⟩ := Option.ne_none_iff_exists'.mp hM
  have ho := openStep_rotates env s X hp hX hmk hrn hop
  rw [InitLoggingWithBackup_eq, run_bind_returned _ _ _ _ _ ho, levelStep_run _ _ l (by exact hl)]
  refine ⟨_, rfl, ?_, ?_, rfl, rfl⟩
  · show Files.lookup (Files.write _ _ _) _ = _
    rw [Files.lookup_write_other _ _ _ _ (backup_path_ne _), Files.lookup_write_same]
  · exact Files.lookup_write_same _ _ _

/-- Rotation of an existing log on a Unix system: the backup holds the old
content and the new file is empty. -/
theorem InitLoggingWithBackup_rotates_witness :
    ∃ t, (InitLoggingWithBackup unixEnv true).run oldLogState
        = .returned [Writer.file (NormalizeLogFilePath unixEnv oldLogState.homedir hardcodedLogPath)
            (O_CREATE ||| O_RDWR), Writer.console oldLogState.consoleWriter] t ∧
      t.files.lookup (NormalizeLogFilePath unixEnv oldLogState.homedir hardcodedLogPath ++ oldLogSuffix)
        = some "X" ∧
      t.files.lookup (NormalizeLogFilePath unixEnv oldLogState.homedir hardcodedLogPath) = some "" :=
  (InitLoggingWithBackup_rotates unixEnv oldLogState "X" (by decide) (by decide) (by decide)
    rfl rfl rfl).elim fun t ht => ⟨t, ht.1, ht.2.1, ht.2.2.1⟩

/-- C6 at an existing log file: the rotation is to open the new file in
create-and-truncate mode, as the comment in the code says too, but rotating an
existing log on a Unix system opens it with `O_CREATE|O_RDWR`: the truncate
flag `O_TRUNC` is not among the flags. -/
theorem InitLoggingWithBackup_open_not_truncating :
    ((InitLoggingWithBackup unixEnv true).run oldLogState).state.calls
      = [Call.mkdirAll "/home/ctrld" none,
         Call.rename "/home/ctrld/C:\\Program Files\\ScamJam\\scamjam-dns-watcher\\watchdog.log"
           "/home/ctrld/C:\\Program Files\\ScamJam\\scamjam-dns-watcher\\watchdog.log.1" none,
         Call.openLogFile "/home/ctrld/C:\\Program Files\\ScamJam\\scamjam-dns-watcher\\watchdog.log"
           (O_CREATE ||| O_RDWR) none] ∧
    (O_CREATE ||| O_RDWR : OpenFlags).trunc = false ∧
    (O_CREATE ||| O_RDWR : OpenFlags) ≠ O_CREATE ||| O_RDWR ||| O_TRUNC := by
  decide

/-- C7: once the directory is there, `InitLoggingWithBackup` makes one call
to open the log file, and its flags are `O_CREATE|O_RDWR|O_APPEND` exactly
when `doBackup` is false or the rename failed for a reason other than a
missing file. In that failure case the failure is reported and the process
goes on: it returns if the open succeeds, exits only if the open fails, and
a file that was there keeps its content. -/
theorem InitLoggingWithBackup_append_mode (env : Env) (doBackup : Bool) (s : State) (p : String)
    (hpath : NormalizeLogFilePath env s.homedir hardcodedLogPath = p) (hp : p ≠ "")
    (hM : s.MainLog ≠ none) (hmk : env.mkdirAllErr (env.path.Dir p) = none) :
    ∃ flags err renames,
      ((InitLoggingWithBackup env doBackup).run s).state.calls
        = s.calls ++ [Call.mkdirAll (env.path.Dir p) none] ++ renames
          ++ [Call.openLogFile p flags err] ∧
      (∀ c ∈ renames, ∃ e, c = Call.rename p (p ++ oldLogSuffix) e) ∧
      (flags = O_CREATE ||| O_RDWR ||| O_APPEND ↔
        (doBackup = false ∨
          ∃ e, renameFiles env s.files p (p ++ oldLogSuffix) = .error e ∧ e.IsNotExist = false)) ∧
      (∀ e, doBackup = true → renameFiles env s.files p (p ++ oldLogSuffix) = .error e →
        e.IsNotExist = false →
        ({ level := Level.ErrorLevel, msg := "could not backup old log file: %v", err := some e }
            : Report) ∈ ((InitLoggingWithBackup env doBackup).run s).state.reports ∧
        (err = none → ∃ ws t, (InitLoggingWithBackup env doBackup).run s = .returned ws t ∧
          ∀ X, s.files.lookup p = some X → t.files = s.files) ∧
        (∀ c t, (InitLoggingWithBackup env doBackup).run s = .exited c t → err ≠ none)) := by
  obtain ⟨l, hl⟩ := Option.ne_none_iff_exists'.mp hM
  have hflags : (O_CREATE ||| O_RDWR : OpenFlags) ≠ O_CREATE ||| O_RDWR ||| O_APPEND := by decide
  cases doBackup with
  | false =>
    obtain ⟨err, h1, _, _, _⟩ := InitLoggingWithBackup_open_call env false s _ p _ l
      (by exact hl) hpath hp hmk (backupStep_noBackup env p _)
    refine ⟨O_CREATE ||| O_RDWR ||| O_APPEND, err, [], ?_, ?_, ?_, ?_⟩
    · rw [h1]; simp [State.record]
    · intro c hc; simp at hc
    · simp
    · intro e hb; simp at hb
  | true =>
    cases hr : renameFiles env s.files p (p ++ oldLogSuffix) with
    | ok fs =>
      obtain ⟨err, h1, _, _, _⟩ := InitLoggingWithBackup_open_call env true s _ p _ l
        (by exact hl) hpath hp hmk (backupStep_renamed env p _ fs (by exact hr))
      refine ⟨O_CREATE ||| O_RDWR, err, [Call.rename p (p ++ oldLogSuffix) none], ?_, ?_, ?_, ?_⟩
      · rw [h1]; simp [State.record]
      · intro c hc; exact ⟨none, by simpa using hc⟩
      · simp [hflags]
      · intro e _ he; simp at he
    | error e =>
      cases hn : e.IsNotExist with
      | true =>
        obtain ⟨err, h1, _, _, _⟩ := InitLoggingWithBackup_open_call env true s _ p _ l
          (by exact hl) hpath hp hmk (backupStep_notExist env p _ e (by exact hr) hn)
        refine ⟨O_CREATE ||| O_RDWR, err, [Call.rename p (p ++ oldLogSuffix) (some e)], ?_, ?_, ?_, ?_⟩
        · rw [h1]; simp [State.record]
        · intro c hc; exact ⟨some e, by simpa using hc⟩
        · simp [hflags, hn]
        · intro e2 _ he hn2
          simp only [Except.error.injEq] at he
          subst he
          rw [hn] at hn2
          simp at hn2
      | false =>
        obtain ⟨err, h1, h2, h3, h4⟩ := InitLoggingWithBackup_open_call env true s _ p _ l
          (by exact hl) hpath hp hmk (backupStep_failed env p _ e l (by exact hl) (by exact hr) hn)
        refine ⟨O_CREATE ||| O_RDWR ||| O_APPEND, err, [Call.rename p (p ++ oldLogSuffix) (some e)], ?_, ?_, ?_, ?_⟩
        · rw [h1]; simp [State.record]
        · intro c hc; exact ⟨some e, by simpa using hc⟩
        · simp [hn]
        · intro e2 _ he _
          simp only [Except.error.injEq] at he
          subst he
          refine ⟨h2 _ (by simp [State.record]), ?_, h4⟩
          intro herr
          obtain ⟨ws, t, hrun, hfiles⟩ := h3 herr
          exact ⟨ws, t, hrun, fun X hX => hfiles (by decide) X (by exact hX)⟩

/-- Witness of C7: on a Unix system that refuses the rename, a backup run
over an existing log opens the file in append mode, has reported the failure,
and, the open succeeding, returns with the files as they were. -/
theorem InitLoggingWithBackup_append_mode_witness :
    ∃ flags err renames,
      ((InitLoggingWithBackup noRenameEnv true).run oldLogState).state.calls
        = oldLogState.calls ++ [Call.mkdirAll "/home/ctrld" none] ++ renames
          ++ [Call.openLogFile
            "/home/ctrld/C:\\Program Files\\ScamJam\\scamjam-dns-watcher\\watchdog.log" flags err] ∧
      flags = O_CREATE ||| O_RDWR ||| O_APPEND ∧
      ({ level := Level.ErrorLevel, msg := "could not backup old log file: %v",
         err := some OsError.permission } : Report)
        ∈ ((InitLoggingWithBackup noRenameEnv true).run oldLogState).state.reports ∧
      (err = none → ∃ ws t,
        (InitLoggingWithBackup noRenameEnv true).run oldLogState = .returned ws t ∧
        t.files = oldLogState.files) :=
  (InitLoggingWithBackup_append_mode noRenameEnv true oldLogState
      "/home/ctrld/C:\\Program Files\\ScamJam\\scamjam-dns-watcher\\watchdog.log"
      (by decide) (by decide) (by decide) rfl).elim fun flags h =>
    h.elim fun err h => h.elim fun renames h =>
      ⟨flags, err, renames, h.1, h.2.2.1.mpr (Or.inr ⟨OsError.permission, rfl, rfl⟩),
        (h.2.2.2 OsError.permission rfl rfl rfl).1,
        fun herr => ((h.2.2.2 OsError.permission rfl rfl rfl).2.1 herr).elim fun ws h2 =>
          h2.elim fun t h3 => ⟨ws, t, h3.1, h3.2 "X" (by decide)⟩⟩

/-! ## Fatal failures -/

/-- C8: with a logger in `MainLog`, `InitLoggingWithBackup` ends the process
with status 1 exactly when one of its calls to create the directories or to
open the log file has failed; every exit has status 1 and leaves `MainLog`,
`ProxyLogger` and the threshold as they were before the call. -/
theorem InitLoggingWithBackup_fatal (env : Env) (doBackup : Bool) (s : State)
    (hM : s.MainLog ≠ none) :
    ((∃ t, (InitLoggingWithBackup env doBackup).run s = .exited 1 t) ↔
      ((∃ d e, Call.mkdirAll d (some e) ∈ ((InitLoggingWithBackup env doBackup).run s).newCalls s) ∨
       (∃ q f e, Call.openLogFile q f (some e)
          ∈ ((InitLoggingWithBackup env doBackup).run s).newCalls s))) ∧
    (∀ c t, (InitLoggingWithBackup env doBackup).run s = .exited c t →
      c = 1 ∧ t.MainLog = s.MainLog ∧ t.ProxyLogger = s.ProxyLogger ∧
        t.GlobalLevel = s.GlobalLevel) := by
  obtain ⟨l, hl⟩ := Option.ne_none_iff_exists'.mp hM
  obtain ⟨hcode, hpanic⟩ := openStep_outcome env doBackup s l hl
  obtain ⟨fs, rs, cs, hf⟩ := openStep_frame env doBackup s
  rw [← any_isFatal_iff, InitLoggingWithBackup_eq]
  cases ho : (openStep env doBackup).run s with
  | returned a u =>
    rw [ho] at hcode hf
    simp only [Outcome.state] at hf
    have hlu : u.MainLog = some l := by rw [hf]; exact hl
    rw [run_bind_returned _ _ _ _ _ ho, levelStep_run _ _ l hlu]
    simp only [Outcome.exitCode?, Outcome.newCalls, Outcome.state] at hcode
    constructor
    · constructor
      · rintro ⟨t, ht⟩; simp at ht
      · intro h
        simp only [Outcome.newCalls, Outcome.state] at h
        rw [if_pos h] at hcode
        simp at hcode
    · intro c t ht; simp at ht
  | exited c u =>
    rw [ho] at hcode hf
    simp only [Outcome.state] at hf
    rw [run_bind_exited _ _ _ _ _ ho]
    simp only [Outcome.exitCode?, Outcome.newCalls, Outcome.state] at hcode
    by_cases hany : (u.calls.drop s.calls.length).any Call.isFatal = true
    · rw [if_pos hany] at hcode
      simp only [Option.some.injEq] at hcode
      subst hcode
      constructor
      · constructor
        · intro _; exact hany
        · intro _; exact ⟨u, rfl⟩
      · intro c t ht
        simp only [Outcome.exited.injEq] at ht
        obtain ⟨h1, h2⟩ := ht
        subst h1 h2
        rw [hf]
        exact ⟨rfl, rfl, rfl, rfl⟩
    · rw [if_neg hany] at hcode
      simp at hcode
  | panicked u =>
    rw [ho] at hpanic
    simp [Outcome.panics] at hpanic

/-- Witness of C8: on a Unix system where the log file cannot be opened the
process exits with status 1 and the loggers and the threshold are untouched. -/
theorem InitLoggingWithBackup_fatal_witness :
    ∃ t, (InitLoggingWithBackup noOpenEnv false).run initState = .exited 1 t ∧
      t.MainLog = initState.MainLog ∧ t.ProxyLogger = initState.ProxyLogger ∧
      t.GlobalLevel = initState.GlobalLevel :=
  ((InitLoggingWithBackup_fatal noOpenEnv false initState (by decide)).1.mpr
    (Or.inr ⟨"/home/ctrld/C:\\Program Files\\ScamJam\\scamjam-dns-watcher\\watchdog.log",
      O_CREATE ||| O_RDWR ||| O_APPEND, OsError.permission, by decide⟩)).elim
    fun t ht => ⟨t, ht,
      ((InitLoggingWithBackup_fatal noOpenEnv false initState (by decide)).2 1 t ht).2⟩

/-! ## The logger registry -/

/-- C9: `MainLog` never holds nil. Package initialisation stores a discarding
logger; each of the three set-up functions, started with a logger in
`MainLog`, does not panic and ends with a logger in `MainLog`; so every
reachable state has a logger in `MainLog`. -/
theorem MainLog_never_nil :
    (∀ s, init.run s = .returned () { s with MainLog := some (Logger.New Writer.discard) }) ∧
    (∀ s, s.MainLog ≠ none →
      ∃ t, InitConsoleLogging.run s = .returned () t ∧ t.MainLog ≠ none) ∧
    (∀ env doBackup s, s.MainLog ≠ none →
      ((InitLoggingWithBackup env doBackup).run s).state.MainLog ≠ none ∧
      ((InitLoggingWithBackup env doBackup).run s).panics = false) ∧
    (∀ env s, s.MainLog ≠ none →
      ((initInteractiveLogging env).run s).state.MainLog ≠ none ∧
      ((initInteractiveLogging env).run s).panics = false) ∧
    (∀ s, Reachable s → s.MainLog ≠ none) := by
  have hinit : ∀ s, init.run s
      = .returned () { s with MainLog := some (Logger.New Writer.discard) } := fun s => rfl
  refine ⟨hinit, InitConsoleLogging_keeps_logger, InitLoggingWithBackup_keeps_logger,
    initInteractiveLogging_keeps_logger, ?_⟩
  intro s hs
  induction hs with
  | init s t h =>
    rw [hinit] at h
    simp only [Outcome.returned.injEq, true_and] at h
    rw [← h]; simp
  | console s t _ h ih =>
    obtain ⟨u, hu, hne⟩ := InitConsoleLogging_keeps_logger s ih
    rw [hu] at h
    simp only [Outcome.returned.injEq, true_and] at h
    rw [← h]; exact hne
  | backup env doBackup ws s t _ h ih =>
    have := (InitLoggingWithBackup_keeps_logger env doBackup s ih).1
    rw [h] at this
    exact this
  | interactive env s t _ h ih =>
    have := (initInteractiveLogging_keeps_logger env s ih).1
    rw [h] at this
    exact this
  | other s t _ h ih => rw [h]; exact ih

/-- Witness of C9: the state after package initialisation and a console
set-up is reachable and has a logger in `MainLog`. -/
theorem MainLog_never_nil_witness :
    (InitConsoleLogging.run initState).state.MainLog ≠ none :=
  MainLog_never_nil.2.2.2.2 _
    (Reachable.console initState _ (Reachable.init {} initState rfl) rfl)

/-! ## The hard-coded log path -/

/-- C10: the log file of `InitLoggingWithBackup` does not depend on the
configured log path. Two states that differ only in the flag variable
`logPath` and in `Cfg.Service.LogPath` give the same outcome, files, reports
and file-system calls included; every file-system call works on the
normalisation of the hard-coded literal path; and `initInteractiveLogging`,
which blanks and restores `Cfg.Service.LogPath`, leaves, whenever it returns,
a logger that writes to that file, and it returns whenever the directory can
be created and the file opened. -/
theorem InitLoggingWithBackup_ignores_configured_path :
    (∀ (env : Env) (doBackup : Bool) (s : State) (a c : String),
      (InitLoggingWithBackup env doBackup).run (s.withLogConfig a c)
        = ((InitLoggingWithBackup env doBackup).run s).mapState
            (fun t => t.withLogConfig a c)) ∧
    (∀ (env : Env) (doBackup : Bool) (s : State),
      ∀ call ∈ ((InitLoggingWithBackup env doBackup).run s).newCalls s,
        call.onPath (env.path.Dir (NormalizeLogFilePath env s.homedir hardcodedLogPath))
          (NormalizeLogFilePath env s.homedir hardcodedLogPath) = true) ∧
    (∀ (env : Env) (s : State) (l : Logger), s.MainLog = some l →
      (∀ a b, b ≠ "" → env.path.Join a b ≠ "") →
      (∀ t, (initInteractiveLogging env).run s = .returned () t →
        t.CfgServiceLogPath = s.CfgServiceLogPath ∧
        t.MainLog = some (l.Output
          [Writer.file (NormalizeLogFilePath env s.homedir hardcodedLogPath)
             (O_CREATE ||| O_RDWR ||| O_APPEND),
           Writer.console s.consoleWriter])) ∧
      (env.mkdirAllErr (env.path.Dir (NormalizeLogFilePath env s.homedir hardcodedLogPath))
          = none →
        env.openErr (NormalizeLogFilePath env s.homedir hardcodedLogPath)
          (O_CREATE ||| O_RDWR ||| O_APPEND) = none →
        ∃ t, (initInteractiveLogging env).run s = .returned () t)) :=
  ⟨InitLoggingWithBackup_withLogConfig, InitLoggingWithBackup_onPath,
    fun env s l hl hJ => initInteractiveLogging_file_writer env s l hl
      (NormalizeLogFilePath_ne_empty env s.homedir hardcodedLogPath hJ (by decide))⟩

/-- Witness of C10: on a Unix system, an interactive set-up with a configured
log path of its own still returns with a logger on the hard-coded file, and
the configured path is back in place. -/
theorem InitLoggingWithBackup_ignores_configured_path_witness :
    ∃ t, (initInteractiveLogging unixEnv).run
        { initState with logPath := "/tmp/a.log", CfgServiceLogPath := "/var/log/ctrld.log" }
        = .returned () t ∧
      t.CfgServiceLogPath = "/var/log/ctrld.log" ∧
      t.MainLog = some ((Logger.New Writer.discard).Output
        [Writer.file "/home/ctrld/C:\\Program Files\\ScamJam\\scamjam-dns-watcher\\watchdog.log"
          (O_CREATE ||| O_RDWR ||| O_APPEND), Writer.console {}]) :=
  ((InitLoggingWithBackup_ignores_configured_path.2.2 unixEnv
      { initState with logPath := "/tmp/a.log", CfgServiceLogPath := "/var/log/ctrld.log" }
      (Logger.New Writer.discard) rfl unixJoin_ne_empty).2 rfl rfl).elim
    fun t ht => ⟨t, ht,
      (InitLoggingWithBackup_ignores_configured_path.2.2 unixEnv
        { initState with logPath := "/tmp/a.log", CfgServiceLogPath := "/var/log/ctrld.log" }
        (Logger.New Writer.discard) rfl unixJoin_ne_empty).1 t ht⟩

end Ctrld
